import Mathlib

/-!
Convolution engines: the default (unrolling) engine and the cuDNN engine.

A shallow embedding of `Math/Math/ConvolutionEngine.cpp` and
`Math/Math/CuDnnConvolutionEngine.cpp`.

Conventions of the embedding.

* `size_t` quantities are natural numbers.  Tensor extents, batch sizes and
  sample limits of the default engine are dimensions of matrices held in
  memory, so the products and sums formed from them are taken without
  wrap-around.  The workspace budget of the cuDNN engine is a product with the
  sample limit, which is a free setting, and is taken modulo 2^64 as `size_t`
  arithmetic does.
* A matrix is its row count, its column count and its storage in
  column-major order.  A column slice is a view: writing to it is modelled
  by `Mat.AssignColumnSlice`, which puts the new contents back in place.
* A `static_cast<int>` of an extent, a stride or a padding is
  `static_cast_int`: the low 32 bits in two's complement.  The native
  descriptors hold the `int` values the vendor library was given.
* Calls into the matrix kernels and into the vendor library are parameters
  of the embedding (`MatrixBackend`, `Cudnn`).
* A C++ exception is a result `Except.error msg` next to the state the
  objects are left in, since that state outlives the throw.
-/

namespace CNTK

/-! ## Shape descriptors -/

/-- Modelled from the spec: `ConvolutionTensor4D`, declared in
`ConvolutionEngine.h`; the shape descriptor `(w, h, c, n)` of a 4D tensor:
width, height, channel count, batch size. -/
structure ConvolutionTensor4D where
  w : Nat
  h : Nat
  c : Nat
  n : Nat
deriving DecidableEq, Repr

/-- Modelled from the spec: `ConvolutionFilter`, declared in
`ConvolutionEngine.h`; the shape `(w, h, c, k)` of a filter: kernel width and
height, input channels, output channels. -/
structure ConvolutionFilter where
  w : Nat
  h : Nat
  c : Nat
  k : Nat
deriving DecidableEq, Repr

/-- Modelled from the spec: `ConvolutionDescriptor` (named `ConvolutionOptions`
in the default engine), declared in `ConvolutionEngine.h`; the triple
`(wStride, hStride, padding)`, in the order of the base constructor. -/
structure ConvolutionDescriptor where
  wStride : Nat
  hStride : Nat
  padding : Bool
deriving DecidableEq, Repr

/-! ## The matrix backend -/

/-- Modelled from the spec: the dense matrix of the matrix backend, seen as a
row count, a column count and column-major storage. -/
structure Mat (α : Type) where
  numRows : Nat
  numCols : Nat
  data : List α
deriving DecidableEq, Repr

namespace Mat

variable {α : Type}

/-- The storage holds exactly `numRows * numCols` elements. -/
def WF (m : Mat α) : Prop := m.data.length = m.numRows * m.numCols

instance (m : Mat α) : Decidable m.WF := by unfold WF; infer_instance

def GetNumRows (m : Mat α) : Nat := m.numRows

def GetNumCols (m : Mat α) : Nat := m.numCols

/-- Modelled from the spec: resize-to-shape.  The contents after a resize are
not specified by the backend; the model keeps the old storage, cut or padded
with the default element to the new element count. -/
def Resize [Inhabited α] (m : Mat α) (numRows numCols : Nat) : Mat α :=
  { numRows := numRows
    numCols := numCols
    data := m.data.take (numRows * numCols) ++
      List.replicate (numRows * numCols - m.data.length) default }

/-- Modelled from the spec: column-slice, the view over the `numCols` columns
that start at column `startColumn`. -/
def ColumnSlice (m : Mat α) (startColumn numCols : Nat) : Mat α :=
  { numRows := m.numRows
    numCols := numCols
    data := (m.data.drop (startColumn * m.numRows)).take (numCols * m.numRows) }

/-- Writing `newData` through the view `m.ColumnSlice startColumn numCols`:
the columns of the view are replaced in place, the others are kept. -/
def AssignColumnSlice (m : Mat α) (startColumn numCols : Nat) (newData : List α) : Mat α :=
  { m with
    data := m.data.take (startColumn * m.numRows) ++ newData ++
      m.data.drop ((startColumn + numCols) * m.numRows) }

/-- Modelled from the spec: reshape-without-copy, which reinterprets the row
and column extents of the same storage. -/
def Reshape (m : Mat α) (numRows numCols : Nat) : Mat α :=
  { m with numRows := numRows, numCols := numCols }

/-- Column-major addressing: the element at row `r`, column `c`. -/
def elem? (m : Mat α) (r c : Nat) : Option α := m.data[r + m.numRows * c]?

/-- Two matrices of equal height side by side. -/
def hcat (x y : Mat α) : Mat α :=
  { numRows := x.numRows
    numCols := x.numCols + y.numCols
    data := x.data ++ y.data }

end Mat

/-- The two matrix kernels the default engine calls.  Each yields the new
contents (column-major) of the matrix it assigns to. -/
structure MatrixBackend (α : Type) where
  /-- The call `tmp.AssignPackedConvolutionInput(inputSubBatch, inW, inH, inC, outW,
  outH, outC, kW, kH, wStride, hStride, zeroPadding)`: the contents of the
  unrolled matrix. -/
  AssignPackedConvolutionInput :
    Mat α → Nat → Nat → Nat → Nat → Nat → Nat → Nat → Nat → Nat → Nat → Bool → List α
  /-- The call `Mat::Multiply(a, transposeA, b, transposeB, c)`: the contents of the
  product `c`. -/
  Multiply : Mat α → Bool → Mat α → Bool → List α

/-! ## DefaultConvolutionEngine -/

/-- The engine state of `DefaultConvolutionEngine`. -/
structure DefaultConvolutionEngine (α : Type) where
  m_maxTempMemSizeInSamples : Nat
  m_tempMatrix : Mat α
deriving DecidableEq, Repr

/-- What one pass of the sub-batch loop of `Forward` computes and passes to the
matrix backend. -/
structure SubBatch where
  startSampleId : Nat
  endSampleId : Nat
  smallBatchSize : Nat
  /-- The arguments of `m_tempMatrix.Resize`. -/
  tempRows : Nat
  tempCols : Nat
  /-- The arguments of `out.ColumnSlice`. -/
  outStartCol : Nat
  outNumCols : Nat
deriving DecidableEq, Repr

/-- The state threaded through the sub-batch loop: the temporary matrix, the
output matrix, and the record of the passes made so far. -/
structure ForwardState (α : Type) where
  tempMatrix : Mat α
  out : Mat α
  passes : List SubBatch
deriving DecidableEq, Repr

namespace DefaultConvolutionEngine

variable {α : Type} [Inhabited α]

/-- The line `size_t maxTempMemSizeInSamples = (m_maxTempMemSizeInSamples == 0 ?
batchSize : m_maxTempMemSizeInSamples)` followed by
`size_t subBatchSize = min(batchSize, maxTempMemSizeInSamples)`. -/
def subBatchSize (batchSize m_maxTempMemSizeInSamples : Nat) : Nat :=
  let maxTempMemSizeInSamples :=
    if m_maxTempMemSizeInSamples = 0 then batchSize else m_maxTempMemSizeInSamples
  min batchSize maxTempMemSizeInSamples

/-- The line `size_t numSubBatches = (batchSize + subBatchSize - 1) /
subBatchSize`. -/
def numSubBatches (batchSize subBatchSize : Nat) : Nat :=
  (batchSize + subBatchSize - 1) / subBatchSize

/-- The body of the loop of `Forward`, for loop index `i`. -/
def ForwardSubBatch (B : MatrixBackend α)
    (inT : ConvolutionTensor4D) (inp : Mat α)
    (filterT : ConvolutionTensor4D) (filter : Mat α)
    (convOpt : ConvolutionDescriptor) (outT : ConvolutionTensor4D)
    (subBatchSize : Nat) (st : ForwardState α) (i : Nat) : ForwardState α :=
  let packedInputRows := filterT.w * filterT.h * inT.c
  let packedInputColsPerSample := outT.w * outT.h
  let outputSizePerChannel := packedInputColsPerSample
  let batchSize := inT.n
  let startSampleId := i * subBatchSize
  let endSampleId := min batchSize (startSampleId + subBatchSize)
  let smallBatchSize := endSampleId - startSampleId
  let tempMatrix := st.tempMatrix.Resize packedInputRows (packedInputColsPerSample * smallBatchSize)
  let inputSubBatch := inp.ColumnSlice startSampleId smallBatchSize
  let tempMatrix :=
    { tempMatrix with
      data := B.AssignPackedConvolutionInput inputSubBatch
        inT.w inT.h inT.c outT.w outT.h outT.c filterT.w filterT.h
        convOpt.wStride convOpt.hStride convOpt.padding }
  let out := st.out.AssignColumnSlice (outputSizePerChannel * startSampleId)
    (outputSizePerChannel * smallBatchSize) (B.Multiply filter false tempMatrix false)
  { tempMatrix := tempMatrix
    out := out
    passes := st.passes ++
      [{ startSampleId := startSampleId
         endSampleId := endSampleId
         smallBatchSize := smallBatchSize
         tempRows := packedInputRows
         tempCols := packedInputColsPerSample * smallBatchSize
         outStartCol := outputSizePerChannel * startSampleId
         outNumCols := outputSizePerChannel * smallBatchSize }] }

/-- The function `Forward` up to, and without, the final `out.Reshape`: the output is still
`outT.c` rows by `outputSizePerChannel * batchSize` columns.  The division
that computes the number of sub-batches traps on a zero divisor: `none`. -/
def ForwardLoop (B : MatrixBackend α) (e : DefaultConvolutionEngine α)
    (inT : ConvolutionTensor4D) (inp : Mat α)
    (filterT : ConvolutionTensor4D) (filter : Mat α)
    (convOpt : ConvolutionDescriptor) (outT : ConvolutionTensor4D)
    (out : Mat α) : Option (ForwardState α) :=
  let packedInputColsPerSample := outT.w * outT.h
  let outputSizePerChannel := packedInputColsPerSample
  let batchSize := inT.n
  let out := out.Resize outT.c (outputSizePerChannel * batchSize)
  let subBatchSize := subBatchSize batchSize e.m_maxTempMemSizeInSamples
  if subBatchSize = 0 then none
  else
    some ((List.range (numSubBatches batchSize subBatchSize)).foldl
      (ForwardSubBatch B inT inp filterT filter convOpt outT subBatchSize)
      { tempMatrix := e.m_tempMatrix, out := out, passes := [] })

/-- The function `DefaultConvolutionEngine::Forward`: the engine and the output matrix
after the call. -/
def Forward (B : MatrixBackend α) (e : DefaultConvolutionEngine α)
    (inT : ConvolutionTensor4D) (inp : Mat α)
    (filterT : ConvolutionTensor4D) (filter : Mat α)
    (convOpt : ConvolutionDescriptor) (outT : ConvolutionTensor4D)
    (out : Mat α) : Option (DefaultConvolutionEngine α × Mat α) :=
  (ForwardLoop B e inT inp filterT filter convOpt outT out).map fun st =>
    ({ e with m_tempMatrix := st.tempMatrix },
      st.out.Reshape (outT.c * (outT.w * outT.h)) inT.n)

/-- The function `DefaultConvolutionEngine::CreateTensor`. -/
def CreateTensor (w h c n : Nat) : ConvolutionTensor4D := { w := w, h := h, c := c, n := n }

end DefaultConvolutionEngine

/-! ## The vendor library -/

/-- The status codes of the vendor library the code tells apart by name, and
some of its other codes. -/
inductive cudnnStatus_t where
  | CUDNN_STATUS_SUCCESS
  | CUDNN_STATUS_NOT_INITIALIZED
  | CUDNN_STATUS_ALLOC_FAILED
  | CUDNN_STATUS_BAD_PARAM
  | CUDNN_STATUS_INTERNAL_ERROR
  | CUDNN_STATUS_EXECUTION_FAILED
  | CUDNN_STATUS_NOT_SUPPORTED
deriving DecidableEq, Repr

inductive cudnnDataType_t where
  | CUDNN_DATA_FLOAT
  | CUDNN_DATA_DOUBLE
deriving DecidableEq, Repr

inductive cudnnTensorFormat_t where
  | CUDNN_TENSOR_NCHW
  | CUDNN_TENSOR_NHWC
deriving DecidableEq, Repr

inductive cudnnConvolutionMode_t where
  | CUDNN_CONVOLUTION
  | CUDNN_CROSS_CORRELATION
deriving DecidableEq, Repr

open cudnnStatus_t cudnnDataType_t cudnnTensorFormat_t cudnnConvolutionMode_t

/-- The macro `TENSOR_FORMAT`, defined as `CUDNN_TENSOR_NCHW`. -/
def TENSOR_FORMAT : cudnnTensorFormat_t := CUDNN_TENSOR_NCHW

/-- The macro `FILTER_FORMAT`, defined as `CUDNN_TENSOR_NCHW`. -/
def FILTER_FORMAT : cudnnTensorFormat_t := CUDNN_TENSOR_NCHW

/-- What a call can throw.  `RuntimeError msg` is the `RuntimeError(msg)` of
these two files; `CudaCallError` is the error `CudaCall` raises for a vendor
call of the named library whose status is not the expected one. -/
inductive Failure where
  | RuntimeError (msg : String)
  | CudaCallError (libName : String) (status : cudnnStatus_t) (expr : String)
deriving DecidableEq, Repr

/-- Modelled from the spec: `CudaCall`, behind the macro `CUDNN_CALL(expr)`
(`CudaCall((expr), #expr, "cuDNN", CUDNN_STATUS_SUCCESS)`): a vendor call that
returns a non-success status becomes a fatal error carrying that status and
the text of the failing call. -/
def CUDNN_CALL (status : cudnnStatus_t) (expr : String) : Except Failure Unit :=
  if status = CUDNN_STATUS_SUCCESS then .ok ()
  else .error (.CudaCallError "cuDNN" status expr)

/-- The conversion `static_cast<int>(x)` of a `size_t` to the 32-bit `int` the
vendor library takes: the low 32 bits of `x`, read in two's complement.  It
keeps the value exactly when `x < 2^31`. -/
def static_cast_int (x : Nat) : Int :=
  if x % 2 ^ 32 < 2 ^ 31 then ((x % 2 ^ 32 : Nat) : Int)
  else ((x % 2 ^ 32 : Nat) : Int) - 2 ^ 32

/-- What `cudnnSetTensor4dDescriptor` was last given for a native tensor
descriptor. -/
structure cudnnTensorDescriptor_t where
  format : cudnnTensorFormat_t
  dataType : cudnnDataType_t
  n : Int
  c : Int
  h : Int
  w : Int
deriving DecidableEq, Repr

/-- What `cudnnSetFilter4dDescriptor_v4` was given for a native filter
descriptor. -/
structure cudnnFilterDescriptor_t where
  dataType : cudnnDataType_t
  format : cudnnTensorFormat_t
  k : Int
  c : Int
  h : Int
  w : Int
deriving DecidableEq, Repr

/-- What `cudnnSetConvolution2dDescriptor` was given for a native convolution
descriptor. -/
structure cudnnConvolutionDescriptor_t where
  pad_h : Int
  pad_w : Int
  u : Int
  v : Int
  upscalex : Int
  upscaley : Int
  mode : cudnnConvolutionMode_t
deriving DecidableEq, Repr

/-- The class `CuDnnTensor4D`: the shape, the data type and the native
descriptor. -/
structure CuDnnTensor4D extends ConvolutionTensor4D where
  m_dataType : cudnnDataType_t
  m_tensor : cudnnTensorDescriptor_t
deriving DecidableEq, Repr

/-- The class `CuDnnFilter`. -/
structure CuDnnFilter extends ConvolutionFilter where
  m_filter : cudnnFilterDescriptor_t
deriving DecidableEq, Repr

/-- The class `CuDnnConvolutionDescriptor`. -/
structure CuDnnConvolutionDescriptor extends ConvolutionDescriptor where
  m_conv : cudnnConvolutionDescriptor_t
deriving DecidableEq, Repr

/-- The records `cudnnConvolutionFwdAlgoPerf_t`, `cudnnConvolutionBwdDataAlgoPerf_t`
and `cudnnConvolutionBwdFilterAlgoPerf_t`: an algorithm, the status of its
trial run and the workspace it needs, in bytes.  The measured time, which the
code never reads, is left out. -/
structure cudnnConvolutionAlgoPerf_t where
  algo : Nat
  status : cudnnStatus_t
  memory : Nat
deriving DecidableEq, Repr

/-- The answers of the vendor library.  A call yields its status and what it
writes through its output arguments. -/
structure Cudnn (α : Type) where
  cudnnCreate : cudnnStatus_t × Nat
  cudnnSetStream : Nat → cudnnStatus_t
  cudnnCreateTensorDescriptor : cudnnStatus_t
  cudnnSetTensor4dDescriptor :
    cudnnTensorFormat_t → cudnnDataType_t → Int → Int → Int → Int → cudnnStatus_t
  cudnnCreateFilterDescriptor : cudnnStatus_t
  cudnnSetFilter4dDescriptor_v4 :
    cudnnDataType_t → cudnnTensorFormat_t → Int → Int → Int → Int → cudnnStatus_t
  cudnnCreateConvolutionDescriptor : cudnnStatus_t
  cudnnSetConvolution2dDescriptor :
    Int → Int → Int → Int → Int → Int → cudnnConvolutionMode_t → cudnnStatus_t
  /-- Arguments: handle, input tensor, filter, convolution descriptor, output
  tensor, requested count.  Result: status and the `calgo` records written,
  best first. -/
  cudnnFindConvolutionForwardAlgorithm :
    Nat → CuDnnTensor4D → CuDnnFilter → CuDnnConvolutionDescriptor → CuDnnTensor4D → Nat →
      cudnnStatus_t × List cudnnConvolutionAlgoPerf_t
  cudnnFindConvolutionBackwardDataAlgorithm :
    Nat → CuDnnFilter → CuDnnTensor4D → CuDnnConvolutionDescriptor → CuDnnTensor4D → Nat →
      cudnnStatus_t × List cudnnConvolutionAlgoPerf_t
  cudnnFindConvolutionBackwardFilterAlgorithm :
    Nat → CuDnnTensor4D → CuDnnTensor4D → CuDnnConvolutionDescriptor → CuDnnFilter → Nat →
      cudnnStatus_t × List cudnnConvolutionAlgoPerf_t
  /-- Arguments: handle, alpha, input tensor and data, filter and weights,
  convolution descriptor, algorithm, workspace buffer, workspace size in
  bytes, beta, output tensor and its present contents.  Result: status and
  the contents of the output afterwards. -/
  cudnnConvolutionForward :
    Nat → α → CuDnnTensor4D → List α → CuDnnFilter → List α → CuDnnConvolutionDescriptor →
      Nat → Mat α → Nat → α → CuDnnTensor4D → List α → cudnnStatus_t × List α
  cudnnConvolutionBackwardData :
    Nat → α → CuDnnFilter → List α → CuDnnTensor4D → List α → CuDnnConvolutionDescriptor →
      Nat → Mat α → Nat → α → CuDnnTensor4D → List α → cudnnStatus_t × List α
  cudnnConvolutionBackwardFilter :
    Nat → α → CuDnnTensor4D → List α → CuDnnTensor4D → List α → CuDnnConvolutionDescriptor →
      Nat → Mat α → Nat → α → CuDnnFilter → List α → cudnnStatus_t × List α

/-- The vendor calls of the convolution engine, as a probe records them: the
three searches, and the three convolution primitives with the multipliers,
the algorithm and the workspace size they were given. -/
inductive CudnnCall (α : Type) where
  | FindConvolutionForwardAlgorithm
  | FindConvolutionBackwardDataAlgorithm
  | FindConvolutionBackwardFilterAlgorithm
  | ConvolutionForward (alpha beta : α) (algo memory : Nat)
  | ConvolutionBackwardData (alpha beta : α) (algo memory : Nat)
  | ConvolutionBackwardFilter (alpha beta : α) (algo memory : Nat)
deriving DecidableEq, Repr

/-- The value of `std::numeric_limits<size_t>::max()`. -/
def SIZE_MAX : Nat := 2 ^ 64 - 1

/-- The function `CuDnnConvolutionEngineFactory::IsSupported`; the argument says whether the
macro `USE_CUDNN` is defined in the build. -/
def CuDnnConvolutionEngineFactory.IsSupported (USE_CUDNN : Bool) : Bool :=
  if USE_CUDNN then true else false

/-! ## Descriptor wrappers -/

/-- The constructor `CuDnnTensor4D(w, h, c, n, dataType)`. -/
def CuDnnTensor4D.create {α : Type} (V : Cudnn α) (w h c n : Nat) (dataType : cudnnDataType_t) :
    Except Failure CuDnnTensor4D := do
  CUDNN_CALL V.cudnnCreateTensorDescriptor "cudnnCreateTensorDescriptor(&m_tensor)"
  CUDNN_CALL (V.cudnnSetTensor4dDescriptor TENSOR_FORMAT dataType (static_cast_int n)
      (static_cast_int c) (static_cast_int h) (static_cast_int w))
    "cudnnSetTensor4dDescriptor(m_tensor, TENSOR_FORMAT, dataType, static_cast<int>(n), static_cast<int>(c), static_cast<int>(h), static_cast<int>(w))"
  return { w := w, h := h, c := c, n := n, m_dataType := dataType,
           m_tensor := { format := TENSOR_FORMAT, dataType := dataType, n := static_cast_int n,
                         c := static_cast_int c, h := static_cast_int h, w := static_cast_int w } }

/-- Modelled from the spec: the base method `ConvolutionTensor4D::setN`, declared
in `ConvolutionEngine.h`; the mutation hook that updates the batch size `n`
in place. -/
def ConvolutionTensor4D.setN (t : ConvolutionTensor4D) (newN : Nat) : ConvolutionTensor4D :=
  { t with n := newN }

/-- The method `CuDnnTensor4D::setN`, which sets the batch size through the base
method and configures the native descriptor again.  When the vendor call
fails the batch size is already set and the native descriptor is as before. -/
def CuDnnTensor4D.setN {α : Type} (V : Cudnn α) (t : CuDnnTensor4D) (newN : Nat) :
    Except Failure Unit × CuDnnTensor4D :=
  let t := { t with toConvolutionTensor4D := t.toConvolutionTensor4D.setN newN }
  match CUDNN_CALL (V.cudnnSetTensor4dDescriptor TENSOR_FORMAT t.m_dataType (static_cast_int t.n)
      (static_cast_int t.c) (static_cast_int t.h) (static_cast_int t.w))
    "cudnnSetTensor4dDescriptor(m_tensor, TENSOR_FORMAT, m_dataType, static_cast<int>(n()), static_cast<int>(c()), static_cast<int>(h()), static_cast<int>(w()))" with
  | .error err => (.error err, t)
  | .ok _ =>
    (.ok (), { t with m_tensor := { format := TENSOR_FORMAT, dataType := t.m_dataType,
                                    n := static_cast_int t.n, c := static_cast_int t.c,
                                    h := static_cast_int t.h, w := static_cast_int t.w } })

/-- The constructor `CuDnnFilter(w, h, c, k, dataType)`. -/
def CuDnnFilter.create {α : Type} (V : Cudnn α) (w h c k : Nat) (dataType : cudnnDataType_t) :
    Except Failure CuDnnFilter := do
  CUDNN_CALL V.cudnnCreateFilterDescriptor "cudnnCreateFilterDescriptor(&m_filter)"
  CUDNN_CALL (V.cudnnSetFilter4dDescriptor_v4 dataType FILTER_FORMAT (static_cast_int k)
      (static_cast_int c) (static_cast_int h) (static_cast_int w))
    "cudnnSetFilter4dDescriptor_v4(m_filter, dataType, FILTER_FORMAT, static_cast<int>(k), static_cast<int>(c), static_cast<int>(h), static_cast<int>(w))"
  return { w := w, h := h, c := c, k := k,
           m_filter := { dataType := dataType, format := FILTER_FORMAT, k := static_cast_int k,
                         c := static_cast_int c, h := static_cast_int h, w := static_cast_int w } }

/-- The constructor `CuDnnConvolutionDescriptor(wStride, hStride, wPad, hPad)`.
The base class is built from `(wStride, hStride, wPad == 0 && hPad == 0)`. -/
def CuDnnConvolutionDescriptor.create {α : Type} (V : Cudnn α) (wStride hStride wPad hPad : Nat) :
    Except Failure CuDnnConvolutionDescriptor := do
  CUDNN_CALL V.cudnnCreateConvolutionDescriptor "cudnnCreateConvolutionDescriptor(&m_conv)"
  CUDNN_CALL (V.cudnnSetConvolution2dDescriptor (static_cast_int hPad) (static_cast_int wPad)
      (static_cast_int hStride) (static_cast_int wStride) 1 1 CUDNN_CROSS_CORRELATION)
    "cudnnSetConvolution2dDescriptor(m_conv, static_cast<int>(hPad), static_cast<int>(wPad), static_cast<int>(hStride), static_cast<int>(wStride), 1, 1, CUDNN_CROSS_CORRELATION)"
  return { wStride := wStride, hStride := hStride, padding := (wPad == 0 && hPad == 0),
           m_conv := { pad_h := static_cast_int hPad, pad_w := static_cast_int wPad,
                       u := static_cast_int hStride, v := static_cast_int wStride,
                       upscalex := 1, upscaley := 1, mode := CUDNN_CROSS_CORRELATION } }

/-- The message of the factory methods in a build without `USE_CUDNN`. -/
def withoutCudnnMessage : String := "The code is compiled without USE_CUDNN macro."

/-- The function `CuDnnConvolutionEngineFactory::CreateConvDescriptor(inT, filterT, wStride,
hStride, padding)`, in both builds. -/
def CuDnnConvolutionEngineFactory.CreateConvDescriptor {α : Type} (USE_CUDNN : Bool) (V : Cudnn α)
    (_inT : ConvolutionTensor4D) (filterT : ConvolutionFilter) (wStride hStride : Nat)
    (padding : Bool) : Except Failure CuDnnConvolutionDescriptor :=
  if USE_CUDNN then
    let wPad := if padding then filterT.w / 2 else 0
    let hPad := if padding then filterT.h / 2 else 0
    CuDnnConvolutionDescriptor.create V wStride hStride wPad hPad
  else
    .error (.RuntimeError withoutCudnnMessage)

/-! ## CuDnnConvolutionEngine -/

/-- The engine state of `CuDnnConvolutionEngine`, and `calls`, the vendor calls
the engine has made so far (a probe, not a member of the class). -/
structure CuDnnConvolutionEngine (α : Type) where
  m_maxTempMemSizeInSamples : Nat
  m_cudnn : Nat
  m_tempC : Mat α
  m_fwdAlgo : cudnnConvolutionAlgoPerf_t
  m_backDataAlgo : cudnnConvolutionAlgoPerf_t
  m_backFiltAlgo : cudnnConvolutionAlgoPerf_t
  calls : List (CudnnCall α)
deriving DecidableEq, Repr

namespace CuDnnConvolutionEngine

variable {α : Type}

/-- The constant `MaxAlgoCount` of the three search functions: 10. -/
def MaxAlgoCount : Nat := 10

def msgForward : String :=
  "cuDNN could not find suitable algorithm for cudnnConvolutionForward."

def msgBackwardData : String :=
  "cuDNN could not find suitable algorithm for cudnnConvolutionBackwardData."

def msgBackwardFilter : String :=
  "cuDNN could not find suitable algorithm for cudnnConvolutionBackwardFilter."

/-- The constructor `CuDnnConvolutionEngine(deviceId, maxTempMemSizeInSamples)`.
Of the three algorithm records only the status is set; the other fields,
which the code assigns before it reads them, are 0 here.  The temporary
matrix starts empty. -/
def create (V : Cudnn α) (_deviceId : Int) (maxTempMemSizeInSamples : Nat) :
    Except Failure (CuDnnConvolutionEngine α) := do
  CUDNN_CALL V.cudnnCreate.1 "cudnnCreate(&m_cudnn)"
  CUDNN_CALL (V.cudnnSetStream V.cudnnCreate.2) "cudnnSetStream(m_cudnn, GetStream())"
  return { m_maxTempMemSizeInSamples := maxTempMemSizeInSamples
           m_cudnn := V.cudnnCreate.2
           m_tempC := { numRows := 0, numCols := 0, data := [] }
           m_fwdAlgo := { algo := 0, status := CUDNN_STATUS_NOT_INITIALIZED, memory := 0 }
           m_backDataAlgo := { algo := 0, status := CUDNN_STATUS_NOT_INITIALIZED, memory := 0 }
           m_backFiltAlgo := { algo := 0, status := CUDNN_STATUS_NOT_INITIALIZED, memory := 0 }
           calls := [] }

/-- The function `CuDnnConvolutionEngine::FindBestForwardAlgo`; `elemSize` is
`sizeof(ElemType)`.  The budget `maxMem` is a product of `size_t` values, taken
modulo 2^64. -/
def FindBestForwardAlgo (V : Cudnn α) (elemSize : Nat) (e : CuDnnConvolutionEngine α)
    (inT : CuDnnTensor4D) (filtT : CuDnnFilter) (convDesc : CuDnnConvolutionDescriptor)
    (outT : CuDnnTensor4D) : Except Failure Unit × CuDnnConvolutionEngine α :=
  if e.m_fwdAlgo.status = CUDNN_STATUS_SUCCESS then (.ok (), e)
  else
    let found := V.cudnnFindConvolutionForwardAlgorithm e.m_cudnn inT filtT convDesc outT MaxAlgoCount
    let algoPerf := found.2
    let e := { e with calls := e.calls ++ [CudnnCall.FindConvolutionForwardAlgorithm] }
    match CUDNN_CALL found.1
      "cudnnFindConvolutionForwardAlgorithm(m_cudnn, inT, filtT, convDesc, outT, MaxAlgoCount, &calgo, algoPerf)" with
    | .error err => (.error err, e)
    | .ok _ =>
      let maxMem :=
        if e.m_maxTempMemSizeInSamples = 0 then SIZE_MAX
        else (inT.w * inT.h * inT.c * e.m_maxTempMemSizeInSamples * elemSize) % 2 ^ 64
      match algoPerf.find? (fun cur => decide (cur.status = CUDNN_STATUS_SUCCESS ∧ cur.memory ≤ maxMem)) with
      | none => (.error (.RuntimeError msgForward), e)
      | some res => (.ok (), { e with m_fwdAlgo := res })

/-- The function `CuDnnConvolutionEngine::FindBestBackwardDataAlgo`. -/
def FindBestBackwardDataAlgo (V : Cudnn α) (elemSize : Nat) (e : CuDnnConvolutionEngine α)
    (filtT : CuDnnFilter) (srcGradT : CuDnnTensor4D) (convDesc : CuDnnConvolutionDescriptor)
    (gradT : CuDnnTensor4D) : Except Failure Unit × CuDnnConvolutionEngine α :=
  if e.m_backDataAlgo.status = CUDNN_STATUS_SUCCESS then (.ok (), e)
  else
    let found := V.cudnnFindConvolutionBackwardDataAlgorithm e.m_cudnn filtT srcGradT convDesc gradT MaxAlgoCount
    let algoPerf := found.2
    let e := { e with calls := e.calls ++ [CudnnCall.FindConvolutionBackwardDataAlgorithm] }
    match CUDNN_CALL found.1
      "cudnnFindConvolutionBackwardDataAlgorithm(m_cudnn, filtT, srcGradT, convDesc, gradT, MaxAlgoCount, &calgo, algoPerf)" with
    | .error err => (.error err, e)
    | .ok _ =>
      let maxMem :=
        if e.m_maxTempMemSizeInSamples = 0 then SIZE_MAX
        else (gradT.w * gradT.h * gradT.c * e.m_maxTempMemSizeInSamples * elemSize) % 2 ^ 64
      match algoPerf.find? (fun cur => decide (cur.status = CUDNN_STATUS_SUCCESS ∧ cur.memory ≤ maxMem)) with
      | none => (.error (.RuntimeError msgBackwardData), e)
      | some res => (.ok (), { e with m_backDataAlgo := res })

/-- The function `CuDnnConvolutionEngine::FindBestBackwardFilterAlgo`. -/
def FindBestBackwardFilterAlgo (V : Cudnn α) (elemSize : Nat) (e : CuDnnConvolutionEngine α)
    (inT : CuDnnTensor4D) (srcGradT : CuDnnTensor4D) (convDesc : CuDnnConvolutionDescriptor)
    (filtT : CuDnnFilter) : Except Failure Unit × CuDnnConvolutionEngine α :=
  if e.m_backFiltAlgo.status = CUDNN_STATUS_SUCCESS then (.ok (), e)
  else
    let found := V.cudnnFindConvolutionBackwardFilterAlgorithm e.m_cudnn inT srcGradT convDesc filtT MaxAlgoCount
    let algoPerf := found.2
    let e := { e with calls := e.calls ++ [CudnnCall.FindConvolutionBackwardFilterAlgorithm] }
    match CUDNN_CALL found.1
      "cudnnFindConvolutionBackwardFilterAlgorithm(m_cudnn, inT, srcGradT, convDesc, filtT, MaxAlgoCount, &calgo, algoPerf)" with
    | .error err => (.error err, e)
    | .ok _ =>
      let maxMem :=
        if e.m_maxTempMemSizeInSamples = 0 then SIZE_MAX
        else (inT.w * inT.h * inT.c * e.m_maxTempMemSizeInSamples * elemSize) % 2 ^ 64
      match algoPerf.find? (fun cur => decide (cur.status = CUDNN_STATUS_SUCCESS ∧ cur.memory ≤ maxMem)) with
      | none => (.error (.RuntimeError msgBackwardFilter), e)
      | some res => (.ok (), { e with m_backFiltAlgo := res })

variable [Inhabited α] [Zero α] [One α]

/-- The function `CuDnnConvolutionEngine::Forward`: the outcome, the engine and the output
matrix after the call. -/
def Forward (V : Cudnn α) (elemSize : Nat) (e : CuDnnConvolutionEngine α)
    (inT : CuDnnTensor4D) (inp : Mat α) (filterT : CuDnnFilter) (filter : Mat α)
    (convDesc : CuDnnConvolutionDescriptor) (outT : CuDnnTensor4D) (out : Mat α) :
    Except Failure Unit × CuDnnConvolutionEngine α × Mat α :=
  match FindBestForwardAlgo V elemSize e inT filterT convDesc outT with
  | (.error err, e) => (.error err, e, out)
  | (.ok _, e) =>
    let e :=
      if e.m_fwdAlgo.memory > 0 then
        { e with m_tempC := e.m_tempC.Resize ((e.m_fwdAlgo.memory + elemSize - 1) / elemSize) 1 }
      else e
    let r := V.cudnnConvolutionForward e.m_cudnn 1 inT inp.data filterT filter.data convDesc
      e.m_fwdAlgo.algo e.m_tempC e.m_fwdAlgo.memory 0 outT out.data
    let e := { e with calls := e.calls ++
      [CudnnCall.ConvolutionForward 1 0 e.m_fwdAlgo.algo e.m_fwdAlgo.memory] }
    (CUDNN_CALL r.1
      "cudnnConvolutionForward(m_cudnn, &C::One, t(inT), ptr(in), f(filterT), ptr(filter), cd(convDesc), m_fwdAlgo.algo, m_tempC.BufferPointer(), m_fwdAlgo.memory, &C::Zero, t(outT), ptr(out))",
      e, { out with data := r.2 })

/-- The function `CuDnnConvolutionEngine::BackwardData`: the outcome, the engine and the
gradient matrix after the call. -/
def BackwardData (V : Cudnn α) (elemSize : Nat) (e : CuDnnConvolutionEngine α)
    (srcGradT : CuDnnTensor4D) (srcGrad : Mat α) (filterT : CuDnnFilter) (filter : Mat α)
    (convDesc : CuDnnConvolutionDescriptor) (gradT : CuDnnTensor4D) (grad : Mat α) :
    Except Failure Unit × CuDnnConvolutionEngine α × Mat α :=
  match FindBestBackwardDataAlgo V elemSize e filterT srcGradT convDesc gradT with
  | (.error err, e) => (.error err, e, grad)
  | (.ok _, e) =>
    let e :=
      if e.m_backDataAlgo.memory > 0 then
        { e with m_tempC := e.m_tempC.Resize ((e.m_backDataAlgo.memory + elemSize - 1) / elemSize) 1 }
      else e
    let r := V.cudnnConvolutionBackwardData e.m_cudnn 1 filterT filter.data srcGradT srcGrad.data
      convDesc e.m_backDataAlgo.algo e.m_tempC e.m_backDataAlgo.memory 1 gradT grad.data
    let e := { e with calls := e.calls ++
      [CudnnCall.ConvolutionBackwardData 1 1 e.m_backDataAlgo.algo e.m_backDataAlgo.memory] }
    (CUDNN_CALL r.1
      "cudnnConvolutionBackwardData(m_cudnn, &C::One, f(filterT), ptr(filter), t(srcGradT), ptr(srcGrad), cd(convDesc), m_backDataAlgo.algo, m_tempC.BufferPointer(), m_backDataAlgo.memory, &C::One, t(gradT), ptr(grad))",
      e, { grad with data := r.2 })

/-- The function `CuDnnConvolutionEngine::BackwardFilter`: the outcome, the engine and the
filter-gradient matrix after the call. -/
def BackwardFilter (V : Cudnn α) (elemSize : Nat) (e : CuDnnConvolutionEngine α)
    (srcGradT : CuDnnTensor4D) (srcGrad : Mat α) (inT : CuDnnTensor4D) (inp : Mat α)
    (convDesc : CuDnnConvolutionDescriptor) (filterT : CuDnnFilter) (filter : Mat α)
    (_allowReuse : Bool) : Except Failure Unit × CuDnnConvolutionEngine α × Mat α :=
  match FindBestBackwardFilterAlgo V elemSize e inT srcGradT convDesc filterT with
  | (.error err, e) => (.error err, e, filter)
  | (.ok _, e) =>
    let e :=
      if e.m_backFiltAlgo.memory > 0 then
        { e with m_tempC := e.m_tempC.Resize ((e.m_backFiltAlgo.memory + elemSize - 1) / elemSize) 1 }
      else e
    let r := V.cudnnConvolutionBackwardFilter e.m_cudnn 1 inT inp.data srcGradT srcGrad.data
      convDesc e.m_backFiltAlgo.algo e.m_tempC e.m_backFiltAlgo.memory 1 filterT filter.data
    let e := { e with calls := e.calls ++
      [CudnnCall.ConvolutionBackwardFilter 1 1 e.m_backFiltAlgo.algo e.m_backFiltAlgo.memory] }
    (CUDNN_CALL r.1
      "cudnnConvolutionBackwardFilter(m_cudnn, &C::One, t(inT), ptr(in), t(srcGradT), ptr(srcGrad), cd(convDesc), m_backFiltAlgo.algo, m_tempC.BufferPointer(), m_backFiltAlgo.memory, &C::One, f(filterT), ptr(filter))",
      e, { filter with data := r.2 })

end CuDnnConvolutionEngine

/-! ## ConvolutionEngine::Create -/

/-- What `ConvolutionEngine::Create` hands back: one of the two engines. -/
inductive ConvolutionEngine (α : Type) where
  | cuDnn (e : CuDnnConvolutionEngine α)
  | default (e : DefaultConvolutionEngine α)
deriving DecidableEq, Repr

/-- The constructor `DefaultConvolutionEngine(deviceId, maxTempMemSizeInSamples)`;
the temporary matrix starts empty. -/
def DefaultConvolutionEngine.create {α : Type} (_deviceId : Int) (maxTempMemSizeInSamples : Nat) :
    DefaultConvolutionEngine α :=
  { m_maxTempMemSizeInSamples := maxTempMemSizeInSamples
    m_tempMatrix := { numRows := 0, numCols := 0, data := [] } }

/-- The function `ConvolutionEngine::Create(deviceId, maxTempMemSizeInSamples)`. -/
def ConvolutionEngine.Create {α : Type} (USE_CUDNN : Bool) (V : Cudnn α) (deviceId : Int)
    (maxTempMemSizeInSamples : Nat) : Except Failure (ConvolutionEngine α) :=
  if deviceId ≥ 0 ∧ CuDnnConvolutionEngineFactory.IsSupported USE_CUDNN = true then
    (CuDnnConvolutionEngine.create V deviceId maxTempMemSizeInSamples).map ConvolutionEngine.cuDnn
  else
    .ok (ConvolutionEngine.default (DefaultConvolutionEngine.create deviceId maxTempMemSizeInSamples))

/-- The limit an engine carries. -/
def ConvolutionEngine.maxTempMemSizeInSamples {α : Type} : ConvolutionEngine α → Nat
  | .cuDnn e => e.m_maxTempMemSizeInSamples
  | .default e => e.m_maxTempMemSizeInSamples

/-! ## Pooling descriptors and the factory, in both builds -/

/-- Modelled from the spec: the pooling kinds of `PoolingDescriptor`, declared
in `ConvolutionEngine.h`: max and average. -/
inductive PoolKind where
  | Max
  | Average
deriving DecidableEq, Repr

/-- Modelled from the spec: `PoolingDescriptor`, declared in
`ConvolutionEngine.h`; the tuple `(kind, w, h, wStride, hStride, wPad, hPad)`,
in the order of the base constructor. -/
structure PoolingDescriptor where
  kind : PoolKind
  w : Nat
  h : Nat
  wStride : Nat
  hStride : Nat
  wPad : Nat
  hPad : Nat
deriving DecidableEq, Repr

inductive cudnnPoolingMode_t where
  | CUDNN_POOLING_MAX
  | CUDNN_POOLING_AVERAGE_COUNT_INCLUDE_PADDING
  | CUDNN_POOLING_AVERAGE_COUNT_EXCLUDE_PADDING
deriving DecidableEq, Repr

open cudnnPoolingMode_t

/-- What `cudnnSetPooling2dDescriptor` was given for a native pooling
descriptor. -/
structure cudnnPoolingDescriptor_t where
  mode : cudnnPoolingMode_t
  windowHeight : Int
  windowWidth : Int
  verticalPadding : Int
  horizontalPadding : Int
  verticalStride : Int
  horizontalStride : Int
deriving DecidableEq, Repr

/-- The class `CuDnnPoolingDescriptor`. -/
structure CuDnnPoolingDescriptor extends PoolingDescriptor where
  m_pool : cudnnPoolingDescriptor_t
deriving DecidableEq, Repr

/-- The answers of the vendor library to the two calls that set up a pooling
descriptor. -/
structure CudnnPooling where
  cudnnCreatePoolingDescriptor : cudnnStatus_t
  cudnnSetPooling2dDescriptor :
    cudnnPoolingMode_t → Int → Int → Int → Int → Int → Int → cudnnStatus_t

/-- The constructor `CuDnnPoolingDescriptor(kind, w, h, wStride, hStride, wPad,
hPad)`. -/
def CuDnnPoolingDescriptor.create (P : CudnnPooling) (kind : PoolKind)
    (w h wStride hStride wPad hPad : Nat) : Except Failure CuDnnPoolingDescriptor := do
  CUDNN_CALL P.cudnnCreatePoolingDescriptor "cudnnCreatePoolingDescriptor(&m_pool)"
  CUDNN_CALL
    (P.cudnnSetPooling2dDescriptor
      (if kind = PoolKind.Max then CUDNN_POOLING_MAX
        else CUDNN_POOLING_AVERAGE_COUNT_EXCLUDE_PADDING)
      (static_cast_int h) (static_cast_int w) (static_cast_int hPad) (static_cast_int wPad)
      (static_cast_int hStride) (static_cast_int wStride))
    "cudnnSetPooling2dDescriptor(m_pool, kind == PoolKind::Max ? CUDNN_POOLING_MAX : CUDNN_POOLING_AVERAGE_COUNT_EXCLUDE_PADDING, static_cast<int>(h), static_cast<int>(w), static_cast<int>(hPad), static_cast<int>(wPad), static_cast<int>(hStride), static_cast<int>(wStride))"
  return { kind := kind, w := w, h := h, wStride := wStride, hStride := hStride,
           wPad := wPad, hPad := hPad,
           m_pool := { mode := if kind = PoolKind.Max then CUDNN_POOLING_MAX
                         else CUDNN_POOLING_AVERAGE_COUNT_EXCLUDE_PADDING
                       windowHeight := static_cast_int h, windowWidth := static_cast_int w
                       verticalPadding := static_cast_int hPad
                       horizontalPadding := static_cast_int wPad
                       verticalStride := static_cast_int hStride
                       horizontalStride := static_cast_int wStride } }

/-- The engine state of `CuDnnPoolingEngine`: the context handle. -/
structure CuDnnPoolingEngine where
  m_cudnn : Nat
deriving DecidableEq, Repr

/-- The constructor `CuDnnPoolingEngine()`. -/
def CuDnnPoolingEngine.create {α : Type} (V : Cudnn α) : Except Failure CuDnnPoolingEngine := do
  CUDNN_CALL V.cudnnCreate.1 "cudnnCreate(&m_cudnn)"
  CUDNN_CALL (V.cudnnSetStream V.cudnnCreate.2) "cudnnSetStream(m_cudnn, GetStream())"
  return { m_cudnn := V.cudnnCreate.2 }

namespace CuDnnConvolutionEngineFactory

/-- The function `CuDnnConvolutionEngineFactory::CreateTensor(w, h, c, n)`, in both
builds; `dataType` is the data type of the element type the factory is
instantiated with (`CUDNN_DATA_FLOAT` for `float`, `CUDNN_DATA_DOUBLE` for
`double`). -/
def CreateTensor {α : Type} (USE_CUDNN : Bool) (V : Cudnn α) (dataType : cudnnDataType_t)
    (w h c n : Nat) : Except Failure CuDnnTensor4D :=
  if USE_CUDNN then CuDnnTensor4D.create V w h c n dataType
  else .error (.RuntimeError withoutCudnnMessage)

/-- The function `CuDnnConvolutionEngineFactory::CreateFilter(w, h, c, k)`, in both
builds. -/
def CreateFilter {α : Type} (USE_CUDNN : Bool) (V : Cudnn α) (dataType : cudnnDataType_t)
    (w h c k : Nat) : Except Failure CuDnnFilter :=
  if USE_CUDNN then CuDnnFilter.create V w h c k dataType
  else .error (.RuntimeError withoutCudnnMessage)

/-- The function `CuDnnConvolutionEngineFactory::CreatePoolDescriptor(kind, w, h,
wStride, hStride, wPad, hPad)`, in both builds. -/
def CreatePoolDescriptor (USE_CUDNN : Bool) (P : CudnnPooling) (kind : PoolKind)
    (w h wStride hStride wPad hPad : Nat) : Except Failure CuDnnPoolingDescriptor :=
  if USE_CUDNN then CuDnnPoolingDescriptor.create P kind w h wStride hStride wPad hPad
  else .error (.RuntimeError withoutCudnnMessage)

/-- The function `CuDnnConvolutionEngineFactory::CreateConvEngine(maxTempMemSizeInSamples)`,
in both builds; `m_deviceId` is the device of the factory. -/
def CreateConvEngine {α : Type} (USE_CUDNN : Bool) (V : Cudnn α) (m_deviceId : Int)
    (maxTempMemSizeInSamples : Nat) : Except Failure (CuDnnConvolutionEngine α) :=
  if USE_CUDNN then CuDnnConvolutionEngine.create V m_deviceId maxTempMemSizeInSamples
  else .error (.RuntimeError withoutCudnnMessage)

/-- The function `CuDnnConvolutionEngineFactory::CreatePoolEngine()`, in both
builds. -/
def CreatePoolEngine {α : Type} (USE_CUDNN : Bool) (V : Cudnn α) :
    Except Failure CuDnnPoolingEngine :=
  if USE_CUDNN then CuDnnPoolingEngine.create V
  else .error (.RuntimeError withoutCudnnMessage)

end CuDnnConvolutionEngineFactory

/-- A vendor library that accepts the two pooling-descriptor calls. -/
def samplePooling : CudnnPooling where
  cudnnCreatePoolingDescriptor := CUDNN_STATUS_SUCCESS
  cudnnSetPooling2dDescriptor := fun _ _ _ _ _ _ _ => CUDNN_STATUS_SUCCESS

/-! ## Properties assumed of the matrix kernels -/

namespace DefaultConvolutionEngine

variable {α : Type}

/-- The contents the unrolling kernel gives for the input `X`, with the
geometry arguments `Forward` passes. -/
def unrolled (B : MatrixBackend α) (inT filterT : ConvolutionTensor4D)
    (convOpt : ConvolutionDescriptor) (outT : ConvolutionTensor4D) (X : Mat α) : List α :=
  B.AssignPackedConvolutionInput X inT.w inT.h inT.c outT.w outT.h outT.c filterT.w filterT.h
    convOpt.wStride convOpt.hStride convOpt.padding

/-- The unrolling kernel acts sample by sample on inputs of `inRows` rows: every
sample (column) of the input yields `packedInputRows * packedInputColsPerSample`
elements, and the unrolling of two batches side by side is the unrolling of
the first followed by the unrolling of the second. -/
def UnrollsSampleBySample (B : MatrixBackend α) (inT filterT : ConvolutionTensor4D)
    (convOpt : ConvolutionDescriptor) (outT : ConvolutionTensor4D) (inRows : Nat) : Prop :=
  (∀ X : Mat α, X.WF → X.numRows = inRows →
      (unrolled B inT filterT convOpt outT X).length =
        filterT.w * filterT.h * inT.c * (outT.w * outT.h * X.numCols)) ∧
  (∀ X Y : Mat α, X.WF → Y.WF → X.numRows = inRows → Y.numRows = inRows →
      unrolled B inT filterT convOpt outT (X.hcat Y) =
        unrolled B inT filterT convOpt outT X ++ unrolled B inT filterT convOpt outT Y)

/-- The product `filter * T`, neither operand transposed, acts column by column
on matrices `T` of `rows` rows: it has one column of `filter.numRows` elements
for every column of `T`, and the product with two matrices side by side is the
product with the first followed by the product with the second. -/
def MultipliesColumnByColumn (B : MatrixBackend α) (filter : Mat α) (rows : Nat) : Prop :=
  (∀ T : Mat α, T.WF → T.numRows = rows →
      (B.Multiply filter false T false).length = filter.numRows * T.numCols) ∧
  (∀ S T : Mat α, S.WF → T.WF → S.numRows = rows → T.numRows = rows →
      B.Multiply filter false (S.hcat T) false =
        B.Multiply filter false S false ++ B.Multiply filter false T false)

/-- The output columns of the samples of `X`: the product of the filter with the
unrolled `X`. -/
def convolved (B : MatrixBackend α) (inT filterT : ConvolutionTensor4D) (filter : Mat α)
    (convOpt : ConvolutionDescriptor) (outT : ConvolutionTensor4D) (X : Mat α) : List α :=
  B.Multiply filter false
    { numRows := filterT.w * filterT.h * inT.c
      numCols := outT.w * outT.h * X.numCols
      data := unrolled B inT filterT convOpt outT X } false

/-- The state of the loop of `Forward` after its first `k` passes. -/
def afterPasses [Inhabited α] (B : MatrixBackend α) (e : DefaultConvolutionEngine α)
    (inT : ConvolutionTensor4D) (inp : Mat α)
    (filterT : ConvolutionTensor4D) (filter : Mat α)
    (convOpt : ConvolutionDescriptor) (outT : ConvolutionTensor4D)
    (out : Mat α) (k : Nat) : ForwardState α :=
  (List.range k).foldl
    (ForwardSubBatch B inT inp filterT filter convOpt outT
      (subBatchSize inT.n e.m_maxTempMemSizeInSamples))
    { tempMatrix := e.m_tempMatrix
      out := out.Resize outT.c (outT.w * outT.h * inT.n)
      passes := [] }

end DefaultConvolutionEngine

/-! ## Sequences of engine calls and the search probe -/

/-- The three operation kinds that keep a cached algorithm. -/
inductive OpKind where
  | forward
  | backwardData
  | backwardFilter
deriving DecidableEq, Repr

/-- Whether a recorded vendor call is one of the three convolution
primitives. -/
def CudnnCall.isConvolution {α : Type} : CudnnCall α → Bool
  | .ConvolutionForward _ _ _ _ => true
  | .ConvolutionBackwardData _ _ _ _ => true
  | .ConvolutionBackwardFilter _ _ _ _ => true
  | _ => false

/-- A call of one of the three operations on an engine, with the answers of the
vendor library at the time of the call, the descriptors and the buffers. -/
inductive EngineCall (α : Type) where
  | Forward (V : Cudnn α) (inT : CuDnnTensor4D) (inp : Mat α) (filterT : CuDnnFilter)
      (filter : Mat α) (convDesc : CuDnnConvolutionDescriptor) (outT : CuDnnTensor4D)
      (out : Mat α)
  | BackwardData (V : Cudnn α) (srcGradT : CuDnnTensor4D) (srcGrad : Mat α)
      (filterT : CuDnnFilter) (filter : Mat α) (convDesc : CuDnnConvolutionDescriptor)
      (gradT : CuDnnTensor4D) (grad : Mat α)
  | BackwardFilter (V : Cudnn α) (srcGradT : CuDnnTensor4D) (srcGrad : Mat α)
      (inT : CuDnnTensor4D) (inp : Mat α) (convDesc : CuDnnConvolutionDescriptor)
      (filterT : CuDnnFilter) (filter : Mat α) (allowReuse : Bool)

def EngineCall.kind {α : Type} : EngineCall α → OpKind
  | .Forward .. => .forward
  | .BackwardData .. => .backwardData
  | .BackwardFilter .. => .backwardFilter

/-- A vendor library over the integers in which every call succeeds.  Each
search reports three algorithms: an unsupported one, one that needs 4096
bytes and one that needs 16 bytes.  The primitives blend
`alpha * result + beta * dst`, with the input data, the source gradient and
again the source gradient as results. -/
def sampleCudnn : Cudnn Int where
  cudnnCreate := (CUDNN_STATUS_SUCCESS, 1)
  cudnnSetStream := fun _ => CUDNN_STATUS_SUCCESS
  cudnnCreateTensorDescriptor := CUDNN_STATUS_SUCCESS
  cudnnSetTensor4dDescriptor := fun _ _ _ _ _ _ => CUDNN_STATUS_SUCCESS
  cudnnCreateFilterDescriptor := CUDNN_STATUS_SUCCESS
  cudnnSetFilter4dDescriptor_v4 := fun _ _ _ _ _ _ => CUDNN_STATUS_SUCCESS
  cudnnCreateConvolutionDescriptor := CUDNN_STATUS_SUCCESS
  cudnnSetConvolution2dDescriptor := fun _ _ _ _ _ _ _ => CUDNN_STATUS_SUCCESS
  cudnnFindConvolutionForwardAlgorithm := fun _ _ _ _ _ _ =>
    (CUDNN_STATUS_SUCCESS,
      [{ algo := 0, status := CUDNN_STATUS_NOT_SUPPORTED, memory := 0 },
       { algo := 1, status := CUDNN_STATUS_SUCCESS, memory := 4096 },
       { algo := 2, status := CUDNN_STATUS_SUCCESS, memory := 16 }])
  cudnnFindConvolutionBackwardDataAlgorithm := fun _ _ _ _ _ _ =>
    (CUDNN_STATUS_SUCCESS,
      [{ algo := 0, status := CUDNN_STATUS_NOT_SUPPORTED, memory := 0 },
       { algo := 1, status := CUDNN_STATUS_SUCCESS, memory := 4096 },
       { algo := 2, status := CUDNN_STATUS_SUCCESS, memory := 16 }])
  cudnnFindConvolutionBackwardFilterAlgorithm := fun _ _ _ _ _ _ =>
    (CUDNN_STATUS_SUCCESS,
      [{ algo := 0, status := CUDNN_STATUS_NOT_SUPPORTED, memory := 0 },
       { algo := 1, status := CUDNN_STATUS_SUCCESS, memory := 4096 },
       { algo := 2, status := CUDNN_STATUS_SUCCESS, memory := 16 }])
  cudnnConvolutionForward := fun _ alpha _ inp _ _ _ _ _ _ beta _ dst =>
    (CUDNN_STATUS_SUCCESS, List.zipWith (fun r d => alpha * r + beta * d) inp dst)
  cudnnConvolutionBackwardData := fun _ alpha _ _ _ srcGrad _ _ _ _ beta _ dst =>
    (CUDNN_STATUS_SUCCESS, List.zipWith (fun r d => alpha * r + beta * d) srcGrad dst)
  cudnnConvolutionBackwardFilter := fun _ alpha _ _ _ srcGrad _ _ _ _ beta _ dst =>
    (CUDNN_STATUS_SUCCESS, List.zipWith (fun r d => alpha * r + beta * d) srcGrad dst)

/-- The vendor library `sampleCudnn`, except that creating a context fails. -/
def uninitializedCudnn : Cudnn Int :=
  { sampleCudnn with cudnnCreate := (CUDNN_STATUS_NOT_INITIALIZED, 0) }

/-- Sample descriptors: a 2x2x1x1 tensor, a 3x3x1x1 filter, stride 1. -/
def sampleTensor : CuDnnTensor4D :=
  { w := 2, h := 2, c := 1, n := 1, m_dataType := CUDNN_DATA_FLOAT,
    m_tensor := { format := TENSOR_FORMAT, dataType := CUDNN_DATA_FLOAT, n := 1, c := 1, h := 2, w := 2 } }

def sampleFilter : CuDnnFilter :=
  { w := 3, h := 3, c := 1, k := 1,
    m_filter := { dataType := CUDNN_DATA_FLOAT, format := FILTER_FORMAT, k := 1, c := 1, h := 3, w := 3 } }

def sampleConvDesc : CuDnnConvolutionDescriptor :=
  { wStride := 1, hStride := 1, padding := false,
    m_conv := { pad_h := 1, pad_w := 1, u := 1, v := 1, upscalex := 1, upscaley := 1,
                mode := CUDNN_CROSS_CORRELATION } }

/-- A freshly constructed engine with limit 1 and context handle 1. -/
def sampleEngine : CuDnnConvolutionEngine Int :=
  { m_maxTempMemSizeInSamples := 1
    m_cudnn := 1
    m_tempC := { numRows := 0, numCols := 0, data := [] }
    m_fwdAlgo := { algo := 0, status := CUDNN_STATUS_NOT_INITIALIZED, memory := 0 }
    m_backDataAlgo := { algo := 0, status := CUDNN_STATUS_NOT_INITIALIZED, memory := 0 }
    m_backFiltAlgo := { algo := 0, status := CUDNN_STATUS_NOT_INITIALIZED, memory := 0 }
    calls := [] }

/-- The engine `sampleEngine` with the limit 2^62 samples. -/
def hugeLimitEngine : CuDnnConvolutionEngine Int :=
  { sampleEngine with m_maxTempMemSizeInSamples := 2 ^ 62 }

/-- Sample buffers: four input elements, nine filter weights. -/
def sampleInput : Mat Int := { numRows := 4, numCols := 1, data := [1, 2, 3, 4] }

def sampleWeights : Mat Int := { numRows := 1, numCols := 9, data := [1, 0, 0, 0, 1, 0, 0, 0, 1] }

def sampleGrad : Mat Int := { numRows := 4, numCols := 1, data := [10, 20, 30, 40] }

/-- The kernels of a 1x1 convolution with one input and one output channel over
the integers: unrolling leaves the samples as they are, and the product
scales every element by the single filter weight. -/
def scalingBackend : MatrixBackend Int where
  AssignPackedConvolutionInput := fun X _ _ _ _ _ _ _ _ _ _ _ => X.data
  Multiply := fun a _ b _ => b.data.map (fun x => a.data.headD 0 * x)

/-! ## Theorems: the default engine -/

namespace DefaultConvolutionEngine

section Batching

variable {α : Type}

theorem subBatchSize_pos {n : Nat} (m : Nat) (hn : 1 ≤ n) : 1 ≤ subBatchSize n m := by
  unfold subBatchSize
  by_cases hm : m = 0
  · simp [hm]; omega
  · simp [hm]; omega

theorem subBatchSize_le (n m : Nat) : subBatchSize n m ≤ n := by
  unfold subBatchSize
  by_cases hm : m = 0
  · simp [hm]
  · simp [hm]

/-- The number of sub-batches is the least `k` with `n ≤ k * s`. -/
theorem numSubBatches_spec {n s : Nat} (hs : 1 ≤ s) :
    n ≤ numSubBatches n s * s ∧ ∀ k, n ≤ k * s → numSubBatches n s ≤ k := by
  unfold numSubBatches
  constructor
  · have h := Nat.lt_div_mul_add (a := n + s - 1) (b := s) (by omega)
    omega
  · intro k hk
    have h1 : n + s - 1 < (k + 1) * s := by
      have : (k + 1) * s = k * s + s := by ring
      omega
    have h2 : (n + s - 1) / s < k + 1 := (Nat.div_lt_iff_lt_mul (by omega)).2 h1
    omega

/-- Before pass `k` of the loop some sample is still to be done. -/
theorem start_lt_of_lt_numSubBatches {n s k : Nat} (hs : 1 ≤ s) (hk : k < numSubBatches n s) :
    k * s < n := by
  by_contra h
  have := (numSubBatches_spec (n := n) hs).2 k (by omega)
  omega

theorem columnSlice_hcat (X : Mat α) (a b : Nat) :
    X.ColumnSlice 0 (a + b) = (X.ColumnSlice 0 a).hcat (X.ColumnSlice a b) := by
  simp only [Mat.ColumnSlice, Mat.hcat, Nat.zero_mul, List.drop_zero, Nat.add_mul,
    List.take_add]

theorem columnSlice_WF (X : Mat α) (a b : Nat) (h : (a + b) * X.numRows ≤ X.data.length) :
    (X.ColumnSlice a b).WF := by
  simp only [Mat.WF, Mat.ColumnSlice, List.length_take, List.length_drop]
  have : (a + b) * X.numRows = a * X.numRows + b * X.numRows := by ring
  have : X.numRows * b = b * X.numRows := by ring
  omega

theorem assign_length_take (d new : List α) (a b : Nat) (hab : a + b ≤ d.length)
    (hnew : new.length = b) :
    (d.take a ++ new ++ d.drop (a + b)).length = d.length ∧
      (d.take a ++ new ++ d.drop (a + b)).take (a + b) = d.take a ++ new := by
  have hta : (d.take a).length = a := by rw [List.length_take]; omega
  constructor
  · simp only [List.length_append, List.length_drop, hta, hnew]; omega
  · have hl : (d.take a ++ new).length = a + b := by
      rw [List.length_append, hta, hnew]
    rw [← hl, List.take_left]

theorem convolved_length {B : MatrixBackend α} {inT filterT : ConvolutionTensor4D}
    {filter : Mat α} {convOpt : ConvolutionDescriptor} {outT : ConvolutionTensor4D} {inRows : Nat}
    (hpack : UnrollsSampleBySample B inT filterT convOpt outT inRows)
    (hmul : MultipliesColumnByColumn B filter (filterT.w * filterT.h * inT.c))
    (X : Mat α) (hX : X.WF) (hr : X.numRows = inRows) :
    (convolved B inT filterT filter convOpt outT X).length =
      filter.numRows * (outT.w * outT.h * X.numCols) := by
  unfold convolved
  rw [hmul.1 _ (by simpa [Mat.WF] using hpack.1 X hX hr) rfl]

theorem convolved_hcat {B : MatrixBackend α} {inT filterT : ConvolutionTensor4D}
    {filter : Mat α} {convOpt : ConvolutionDescriptor} {outT : ConvolutionTensor4D} {inRows : Nat}
    (hpack : UnrollsSampleBySample B inT filterT convOpt outT inRows)
    (hmul : MultipliesColumnByColumn B filter (filterT.w * filterT.h * inT.c))
    (X Y : Mat α) (hX : X.WF) (hY : Y.WF) (hrX : X.numRows = inRows) (hrY : Y.numRows = inRows) :
    convolved B inT filterT filter convOpt outT (X.hcat Y) =
      convolved B inT filterT filter convOpt outT X ++
        convolved B inT filterT filter convOpt outT Y := by
  unfold convolved
  rw [← hmul.2 _ _ (by simpa [Mat.WF] using hpack.1 X hX hrX)
    (by simpa [Mat.WF] using hpack.1 Y hY hrY) rfl rfl]
  have h := hpack.2 X Y hX hY hrX hrY
  simp only [Mat.hcat] at h ⊢
  rw [h, Nat.mul_add]

theorem afterPasses_succ [Inhabited α] (B : MatrixBackend α) (e : DefaultConvolutionEngine α)
    (inT : ConvolutionTensor4D) (inp : Mat α) (filterT : ConvolutionTensor4D) (filter : Mat α)
    (convOpt : ConvolutionDescriptor) (outT : ConvolutionTensor4D) (out : Mat α) (k : Nat) :
    afterPasses B e inT inp filterT filter convOpt outT out (k + 1) =
      ForwardSubBatch B inT inp filterT filter convOpt outT
        (subBatchSize inT.n e.m_maxTempMemSizeInSamples)
        (afterPasses B e inT inp filterT filter convOpt outT out k) k := by
  simp only [afterPasses, List.range_succ, List.foldl_append, List.foldl_cons, List.foldl_nil]

theorem forwardSubBatch_out [Inhabited α] (B : MatrixBackend α)
    (inT : ConvolutionTensor4D) (inp : Mat α) (filterT : ConvolutionTensor4D) (filter : Mat α)
    (convOpt : ConvolutionDescriptor) (outT : ConvolutionTensor4D) (s : Nat)
    (st : ForwardState α) (i : Nat) :
    (ForwardSubBatch B inT inp filterT filter convOpt outT s st i).out =
      st.out.AssignColumnSlice (outT.w * outT.h * (i * s))
        (outT.w * outT.h * (min inT.n (i * s + s) - i * s))
        (convolved B inT filterT filter convOpt outT
          (inp.ColumnSlice (i * s) (min inT.n (i * s + s) - i * s))) := rfl

/-- The invariant of the loop of `Forward`: after `k` passes the output has its
final extent and its first `min n (k * subBatchSize)` samples are the
convolved input samples. -/
theorem afterPasses_out [Inhabited α] {B : MatrixBackend α} (e : DefaultConvolutionEngine α)
    {inT : ConvolutionTensor4D} {inp : Mat α} {filterT : ConvolutionTensor4D} {filter : Mat α}
    {convOpt : ConvolutionDescriptor} {outT : ConvolutionTensor4D} (out : Mat α)
    (hn : 1 ≤ inT.n) (hin : inp.WF) (hcols : inp.numCols = inT.n)
    (hfilt : filter.numRows = outT.c)
    (hpack : UnrollsSampleBySample B inT filterT convOpt outT inp.numRows)
    (hmul : MultipliesColumnByColumn B filter (filterT.w * filterT.h * inT.c))
    (k : Nat)
    (hk : k ≤ numSubBatches inT.n (subBatchSize inT.n e.m_maxTempMemSizeInSamples)) :
    (afterPasses B e inT inp filterT filter convOpt outT out k).out.numRows = outT.c ∧
    (afterPasses B e inT inp filterT filter convOpt outT out k).out.numCols =
      outT.w * outT.h * inT.n ∧
    (afterPasses B e inT inp filterT filter convOpt outT out k).out.data.length =
      outT.w * outT.h * inT.n * outT.c ∧
    (afterPasses B e inT inp filterT filter convOpt outT out k).out.data.take
        (outT.w * outT.h * (min inT.n (k * subBatchSize inT.n e.m_maxTempMemSizeInSamples))
          * outT.c) =
      convolved B inT filterT filter convOpt outT
        (inp.ColumnSlice 0 (min inT.n (k * subBatchSize inT.n e.m_maxTempMemSizeInSamples))) := by
  have hs := subBatchSize_pos e.m_maxTempMemSizeInSamples hn
  have hlen : inT.n * inp.numRows ≤ inp.data.length := by
    rw [hin, hcols, Nat.mul_comm]
  have hsl : ∀ a b, a + b ≤ inT.n → (inp.ColumnSlice a b).WF := fun a b hab =>
    columnSlice_WF inp a b (le_trans (Nat.mul_le_mul_right _ hab) hlen)
  induction k with
  | zero =>
    refine ⟨rfl, rfl, ?_, ?_⟩
    · simp only [afterPasses, List.range_zero, List.foldl_nil, Mat.Resize, List.length_append,
        List.length_take, List.length_replicate]
      have : outT.c * (outT.w * outT.h * inT.n) = outT.w * outT.h * inT.n * outT.c := by ring
      omega
    · have h0 := convolved_length hpack hmul (inp.ColumnSlice 0 0) (hsl 0 0 (by omega)) rfl
      simp only [Nat.zero_mul, Nat.min_zero, Nat.mul_zero, List.take_zero]
      symm
      apply List.eq_nil_of_length_eq_zero
      rw [h0]
      simp [Mat.ColumnSlice]
  | succ k ih =>
    obtain ⟨ih1, ih2, ih3, ih4⟩ := ih (by omega)
    have hlt := start_lt_of_lt_numSubBatches hs (show k < _ from hk)
    rw [afterPasses_succ, forwardSubBatch_out]
    generalize subBatchSize inT.n e.m_maxTempMemSizeInSamples = s at *
    generalize (afterPasses B e inT inp filterT filter convOpt outT out k).out = prev at *
    have hmin : min inT.n (k * s) = k * s := by omega
    have hks : (k + 1) * s = k * s + s := by ring
    rw [hmin] at ih4
    generalize hsmall : min inT.n (k * s + s) - k * s = small
    have hend : min inT.n ((k + 1) * s) = k * s + small := by omega
    have hsum : k * s + small ≤ inT.n := by omega
    have hnew : (convolved B inT filterT filter convOpt outT (inp.ColumnSlice (k * s) small)).length
        = outT.w * outT.h * small * outT.c := by
      rw [convolved_length hpack hmul _ (hsl _ _ hsum) rfl, hfilt]
      simp only [Mat.ColumnSlice]
      ring
    have hle : outT.w * outT.h * (k * s) * outT.c + outT.w * outT.h * small * outT.c
        ≤ prev.data.length := by
      rw [ih3]
      have : outT.w * outT.h * (k * s) * outT.c + outT.w * outT.h * small * outT.c
          = outT.w * outT.h * (k * s + small) * outT.c := by ring
      rw [this]
      exact Nat.mul_le_mul_right _ (Nat.mul_le_mul_left _ hsum)
    have key := assign_length_take prev.data _ _ _ hle hnew
    have hoff : (outT.w * outT.h * (k * s) + outT.w * outT.h * small) * prev.numRows
        = outT.w * outT.h * (k * s) * outT.c + outT.w * outT.h * small * outT.c := by
      rw [ih1]; ring
    refine ⟨ih1, ih2, ?_, ?_⟩
    · simp only [Mat.AssignColumnSlice]
      rw [hoff, ih1, key.1, ih3]
    · simp only [Mat.AssignColumnSlice]
      rw [hoff, ih1, hend]
      have : outT.w * outT.h * (k * s + small) * outT.c
          = outT.w * outT.h * (k * s) * outT.c + outT.w * outT.h * small * outT.c := by ring
      rw [this, key.2, ih4, columnSlice_hcat,
        convolved_hcat hpack hmul _ _ (hsl 0 _ (by omega)) (hsl _ _ hsum) rfl rfl]

theorem columnSlice_all (X : Mat α) (hX : X.WF) : X.ColumnSlice 0 X.numCols = X := by
  cases X with
  | mk r c d =>
    simp only [Mat.WF] at hX
    simp only [Mat.ColumnSlice, Nat.zero_mul, List.drop_zero, Mat.mk.injEq, true_and]
    exact List.take_of_length_le (by rw [hX, Nat.mul_comm])

/-- The closed form of `Forward`: for a batch of at least one sample it returns,
and its output is the convolved input, one sample per column. -/
theorem forward_eq [Inhabited α] {B : MatrixBackend α} (e : DefaultConvolutionEngine α)
    {inT : ConvolutionTensor4D} {inp : Mat α} {filterT : ConvolutionTensor4D} {filter : Mat α}
    {convOpt : ConvolutionDescriptor} {outT : ConvolutionTensor4D} (out : Mat α)
    (hn : 1 ≤ inT.n) (hin : inp.WF) (hcols : inp.numCols = inT.n)
    (hfilt : filter.numRows = outT.c)
    (hpack : UnrollsSampleBySample B inT filterT convOpt outT inp.numRows)
    (hmul : MultipliesColumnByColumn B filter (filterT.w * filterT.h * inT.c)) :
    (Forward B e inT inp filterT filter convOpt outT out).map Prod.snd =
      some { numRows := outT.c * (outT.w * outT.h)
             numCols := inT.n
             data := convolved B inT filterT filter convOpt outT inp } := by
  have hs := subBatchSize_pos e.m_maxTempMemSizeInSamples hn
  have hinv := afterPasses_out e out hn hin hcols hfilt hpack hmul
    (numSubBatches inT.n (subBatchSize inT.n e.m_maxTempMemSizeInSamples)) (le_refl _)
  obtain ⟨-, -, h3, h4⟩ := hinv
  have hcover := (numSubBatches_spec (n := inT.n) hs).1
  have hall : inp.ColumnSlice 0 inT.n = inp := by
    rw [← hcols]; exact columnSlice_all inp hin
  rw [Nat.min_eq_left hcover, ← h3, List.take_length, hall] at h4
  have hne : subBatchSize inT.n e.m_maxTempMemSizeInSamples ≠ 0 := by omega
  simp only [Forward, ForwardLoop, hne, if_false, Option.map_some', Mat.Reshape]
  rw [← h4]
  rfl

end Batching

/-- C1. Batching invariance of `DefaultConvolutionEngine::Forward`: for a batch of
`inT.n ≥ 1` samples, with the asserted input and filter shapes, an unrolling
kernel that acts sample by sample and a product that acts column by column,
the call returns for every temp-memory limit (the limit of the engine `e` is
arbitrary) and its output matrix is the one the call returns with limit 0.
The prior contents of the temporary matrices and output buffers are
arbitrary. -/
theorem forward_batching_invariance {α : Type} [Inhabited α] (B : MatrixBackend α)
    (e e0 : DefaultConvolutionEngine α)
    (inT : ConvolutionTensor4D) (inp : Mat α) (filterT : ConvolutionTensor4D) (filter : Mat α)
    (convOpt : ConvolutionDescriptor) (outT : ConvolutionTensor4D) (out out0 : Mat α)
    (h0 : e0.m_maxTempMemSizeInSamples = 0)
    (hn : 1 ≤ inT.n) (hin : inp.WF) (hcols : inp.GetNumCols = inT.n)
    (hfilt : filter.GetNumRows = outT.c)
    (hpack : UnrollsSampleBySample B inT filterT convOpt outT inp.GetNumRows)
    (hmul : MultipliesColumnByColumn B filter (filterT.w * filterT.h * inT.c)) :
    ∃ o : Mat α,
      (Forward B e inT inp filterT filter convOpt outT out).map Prod.snd = some o ∧
      (Forward B e0 inT inp filterT filter convOpt outT out0).map Prod.snd = some o ∧
      subBatchSize inT.n e0.m_maxTempMemSizeInSamples = inT.n :=
  ⟨_, forward_eq e out hn hin hcols hfilt hpack hmul,
    forward_eq e0 out0 hn hin hcols hfilt hpack hmul, by simp [subBatchSize, h0]⟩

theorem scalingBackend_unrolls (inT filterT : ConvolutionTensor4D)
    (convOpt : ConvolutionDescriptor) (outT : ConvolutionTensor4D)
    (h1 : filterT.w * filterT.h * inT.c = 1) (h2 : outT.w * outT.h = 1) :
    UnrollsSampleBySample scalingBackend inT filterT convOpt outT 1 := by
  refine ⟨fun X hX hr => ?_, fun X Y _ _ _ _ => rfl⟩
  simp only [Mat.WF] at hX
  simp [unrolled, scalingBackend, hX, hr, h1, h2]

theorem scalingBackend_multiplies (filter : Mat Int) (rows : Nat) (hf : filter.numRows = 1)
    (hrows : rows = 1) : MultipliesColumnByColumn scalingBackend filter rows := by
  refine ⟨fun T hT hr => ?_, fun S T _ _ _ _ => ?_⟩
  · simp only [Mat.WF] at hT
    simp [scalingBackend, hT, hr, hf, hrows]
  · simp [scalingBackend, Mat.hcat]

/-- Witness for C1: three single-element samples, limit 2 (sub-batches of 2 and 1
samples) against limit 0. -/
theorem forward_batching_invariance_witness :
    ∃ o : Mat Int,
      (Forward scalingBackend
        { m_maxTempMemSizeInSamples := 2, m_tempMatrix := { numRows := 0, numCols := 0, data := [] } }
        { w := 1, h := 1, c := 1, n := 3 } { numRows := 1, numCols := 3, data := [5, 7, 11] }
        { w := 1, h := 1, c := 1, n := 1 } { numRows := 1, numCols := 1, data := [2] }
        { wStride := 1, hStride := 1, padding := false } { w := 1, h := 1, c := 1, n := 3 }
        { numRows := 0, numCols := 0, data := [] }).map Prod.snd = some o ∧
      (Forward scalingBackend
        { m_maxTempMemSizeInSamples := 0, m_tempMatrix := { numRows := 0, numCols := 0, data := [] } }
        { w := 1, h := 1, c := 1, n := 3 } { numRows := 1, numCols := 3, data := [5, 7, 11] }
        { w := 1, h := 1, c := 1, n := 1 } { numRows := 1, numCols := 1, data := [2] }
        { wStride := 1, hStride := 1, padding := false } { w := 1, h := 1, c := 1, n := 3 }
        { numRows := 1, numCols := 1, data := [9] }).map Prod.snd = some o ∧
      subBatchSize 3 0 = 3 :=
  forward_batching_invariance scalingBackend _ _ _ _ _ _ _ _ _ _ rfl (by decide) (by decide)
    rfl rfl (scalingBackend_unrolls _ _ _ _ rfl rfl) (scalingBackend_multiplies _ _ rfl rfl)

section Partition

variable {α : Type} [Inhabited α]

theorem afterPasses_passes (B : MatrixBackend α) (e : DefaultConvolutionEngine α)
    (inT : ConvolutionTensor4D) (inp : Mat α) (filterT : ConvolutionTensor4D) (filter : Mat α)
    (convOpt : ConvolutionDescriptor) (outT : ConvolutionTensor4D) (out : Mat α) (k : Nat) :
    (afterPasses B e inT inp filterT filter convOpt outT out k).passes =
      (List.range k).map fun i =>
        { startSampleId := i * subBatchSize inT.n e.m_maxTempMemSizeInSamples
          endSampleId := min inT.n (i * subBatchSize inT.n e.m_maxTempMemSizeInSamples
            + subBatchSize inT.n e.m_maxTempMemSizeInSamples)
          smallBatchSize := min inT.n (i * subBatchSize inT.n e.m_maxTempMemSizeInSamples
            + subBatchSize inT.n e.m_maxTempMemSizeInSamples)
            - i * subBatchSize inT.n e.m_maxTempMemSizeInSamples
          tempRows := filterT.w * filterT.h * inT.c
          tempCols := outT.w * outT.h *
            (min inT.n (i * subBatchSize inT.n e.m_maxTempMemSizeInSamples
              + subBatchSize inT.n e.m_maxTempMemSizeInSamples)
              - i * subBatchSize inT.n e.m_maxTempMemSizeInSamples)
          outStartCol := outT.w * outT.h * (i * subBatchSize inT.n e.m_maxTempMemSizeInSamples)
          outNumCols := outT.w * outT.h *
            (min inT.n (i * subBatchSize inT.n e.m_maxTempMemSizeInSamples
              + subBatchSize inT.n e.m_maxTempMemSizeInSamples)
              - i * subBatchSize inT.n e.m_maxTempMemSizeInSamples) } := by
  induction k with
  | zero => rfl
  | succ k ih =>
    rw [afterPasses_succ, List.range_succ, List.map_append, ← ih]
    rfl

theorem afterPasses_temp (B : MatrixBackend α) (e : DefaultConvolutionEngine α)
    (inT : ConvolutionTensor4D) (inp : Mat α) (filterT : ConvolutionTensor4D) (filter : Mat α)
    (convOpt : ConvolutionDescriptor) (outT : ConvolutionTensor4D) (out : Mat α) (i : Nat) :
    (afterPasses B e inT inp filterT filter convOpt outT out (i + 1)).tempMatrix.numRows =
        filterT.w * filterT.h * inT.c ∧
      (afterPasses B e inT inp filterT filter convOpt outT out (i + 1)).tempMatrix.numCols =
        outT.w * outT.h *
          (min inT.n (i * subBatchSize inT.n e.m_maxTempMemSizeInSamples
            + subBatchSize inT.n e.m_maxTempMemSizeInSamples)
            - i * subBatchSize inT.n e.m_maxTempMemSizeInSamples) := by
  rw [afterPasses_succ]
  exact ⟨rfl, rfl⟩

end Partition

section Layout

variable {α : Type} [Inhabited α]

theorem afterPasses_dims (B : MatrixBackend α) (e : DefaultConvolutionEngine α)
    (inT : ConvolutionTensor4D) (inp : Mat α) (filterT : ConvolutionTensor4D) (filter : Mat α)
    (convOpt : ConvolutionDescriptor) (outT : ConvolutionTensor4D) (out : Mat α) (k : Nat) :
    (afterPasses B e inT inp filterT filter convOpt outT out k).out.numRows = outT.c ∧
      (afterPasses B e inT inp filterT filter convOpt outT out k).out.numCols =
        outT.w * outT.h * inT.n := by
  induction k with
  | zero => exact ⟨rfl, rfl⟩
  | succ k ih =>
    rw [afterPasses_succ, forwardSubBatch_out]
    exact ih

theorem forwardLoop_eq (B : MatrixBackend α) (e : DefaultConvolutionEngine α)
    (inT : ConvolutionTensor4D) (inp : Mat α) (filterT : ConvolutionTensor4D) (filter : Mat α)
    (convOpt : ConvolutionDescriptor) (outT : ConvolutionTensor4D) (out : Mat α)
    (hn : 1 ≤ inT.n) :
    ForwardLoop B e inT inp filterT filter convOpt outT out =
      some (afterPasses B e inT inp filterT filter convOpt outT out
        (numSubBatches inT.n (subBatchSize inT.n e.m_maxTempMemSizeInSamples))) := by
  have hs := subBatchSize_pos e.m_maxTempMemSizeInSamples hn
  have hne : subBatchSize inT.n e.m_maxTempMemSizeInSamples ≠ 0 := by omega
  simp only [ForwardLoop, hne, if_false, afterPasses]

theorem index_in_range {c P n k p s : Nat} (hk : k < c) (hp : p < P) (hs : s < n) :
    k + c * (p + P * s) < P * n * c := by
  have h1 : p + P * s + 1 ≤ P * n := by
    have : P * (s + 1) ≤ P * n := Nat.mul_le_mul_left _ hs
    have : P * (s + 1) = P * s + P := by ring
    omega
  have h2 : c * (p + P * s + 1) ≤ c * (P * n) := Nat.mul_le_mul_left _ h1
  have h3 : c * (p + P * s + 1) = c * (p + P * s) + c := by ring
  have h4 : c * (P * n) = P * n * c := by ring
  omega

end Layout

/-- C7. Output layout of `DefaultConvolutionEngine::Forward`, for a batch of
`inT.n ≥ 1` samples.  The call returns; the matrix the sub-batches wrote has
`outT.c` rows and `outT.w*outT.h*n` columns; the output ends with
`outT.c*outT.w*outT.h` rows and `n` columns, the same number of elements and
the same storage; the element at `(k, p + outT.w*outT.h*s)` of the un-reshaped
matrix is the element at `(k + outT.c*p, s)` of the reshaped one, and with the
asserted shapes and kernels that act sample by sample and column by column
that element exists for every channel `k`, position `p` and sample `s` in
range.  For input 4x4x1x2, filter 3x3x1x2 and output 2x2x2x2 every pass
unrolls into 9 rows and the final output is 8 rows by 2 columns. -/
theorem forward_output_layout {α : Type} [Inhabited α] (B : MatrixBackend α)
    (e : DefaultConvolutionEngine α)
    (inT : ConvolutionTensor4D) (inp : Mat α) (filterT : ConvolutionTensor4D) (filter : Mat α)
    (convOpt : ConvolutionDescriptor) (outT : ConvolutionTensor4D) (out : Mat α)
    (hn : 1 ≤ inT.n) :
    ∃ (st : ForwardState α) (e1 : DefaultConvolutionEngine α) (o : Mat α),
      ForwardLoop B e inT inp filterT filter convOpt outT out = some st ∧
      Forward B e inT inp filterT filter convOpt outT out = some (e1, o) ∧
      st.out.numRows = outT.c ∧ st.out.numCols = outT.w * outT.h * inT.n ∧
      o.numRows = outT.c * outT.w * outT.h ∧ o.numCols = inT.n ∧
      o.numRows * o.numCols = st.out.numRows * st.out.numCols ∧
      o.data = st.out.data ∧
      (∀ k p s, st.out.elem? k (p + outT.w * outT.h * s) = o.elem? (k + outT.c * p) s) ∧
      (inp.WF → inp.GetNumCols = inT.n → filter.GetNumRows = outT.c →
        UnrollsSampleBySample B inT filterT convOpt outT inp.GetNumRows →
        MultipliesColumnByColumn B filter (filterT.w * filterT.h * inT.c) →
        ∀ k p s, k < outT.c → p < outT.w * outT.h → s < inT.n →
          ∃ v, st.out.elem? k (p + outT.w * outT.h * s) = some v ∧
            o.elem? (k + outT.c * p) s = some v) ∧
      (inT = { w := 4, h := 4, c := 1, n := 2 } → filterT = { w := 3, h := 3, c := 1, n := 2 } →
        outT = { w := 2, h := 2, c := 2, n := 2 } →
        (∀ p ∈ st.passes, p.tempRows = 9) ∧ e1.m_tempMatrix.numRows = 9 ∧
          o.numRows = 8 ∧ o.numCols = 2) := by
  have hloop := forwardLoop_eq B e inT inp filterT filter convOpt outT out hn
  have hdims := afterPasses_dims B e inT inp filterT filter convOpt outT out
    (numSubBatches inT.n (subBatchSize inT.n e.m_maxTempMemSizeInSamples))
  have hidx : ∀ k p s,
      (afterPasses B e inT inp filterT filter convOpt outT out
        (numSubBatches inT.n (subBatchSize inT.n e.m_maxTempMemSizeInSamples))).out.elem? k
          (p + outT.w * outT.h * s) =
      ((afterPasses B e inT inp filterT filter convOpt outT out
        (numSubBatches inT.n (subBatchSize inT.n e.m_maxTempMemSizeInSamples))).out.Reshape
          (outT.c * (outT.w * outT.h)) inT.n).elem? (k + outT.c * p) s := by
    intro k p s
    simp only [Mat.elem?, Mat.Reshape, hdims.1]
    congr 1
    ring
  refine ⟨afterPasses B e inT inp filterT filter convOpt outT out
      (numSubBatches inT.n (subBatchSize inT.n e.m_maxTempMemSizeInSamples)),
    { e with m_tempMatrix := (afterPasses B e inT inp filterT filter convOpt outT out
      (numSubBatches inT.n (subBatchSize inT.n e.m_maxTempMemSizeInSamples))).tempMatrix },
    (afterPasses B e inT inp filterT filter convOpt outT out
      (numSubBatches inT.n (subBatchSize inT.n e.m_maxTempMemSizeInSamples))).out.Reshape
        (outT.c * (outT.w * outT.h)) inT.n,
    hloop, by rw [Forward, hloop]; rfl, hdims.1, hdims.2, ?_, rfl, ?_, rfl, hidx, ?_, ?_⟩
  · simp only [Mat.Reshape]; ring
  · simp only [Mat.Reshape, hdims.1, hdims.2]; ring
  · intro hin hcols hfilt hpack hmul k p s hk hp hs
    have hlen := (afterPasses_out e out hn hin hcols hfilt hpack hmul _ (le_refl _)).2.2.1
    have hlt := index_in_range hk hp hs
    rw [← hlen] at hlt
    have hget : (afterPasses B e inT inp filterT filter convOpt outT out
        (numSubBatches inT.n (subBatchSize inT.n e.m_maxTempMemSizeInSamples))).out.elem? k
          (p + outT.w * outT.h * s) =
        some ((afterPasses B e inT inp filterT filter convOpt outT out
          (numSubBatches inT.n (subBatchSize inT.n e.m_maxTempMemSizeInSamples))).out.data.get
            ⟨k + outT.c * (p + outT.w * outT.h * s), hlt⟩) := by
      simp only [Mat.elem?, hdims.1]
      exact List.getElem?_eq_getElem hlt
    exact ⟨_, hget, by rw [← hidx]; exact hget⟩
  · intro hi hf ho
    subst hi hf ho
    refine ⟨?_, ?_, rfl, rfl⟩
    · intro p hp
      rw [afterPasses_passes, List.mem_map] at hp
      obtain ⟨i, -, rfl⟩ := hp
      rfl
    · have hk : 1 ≤ numSubBatches 2 (subBatchSize 2 e.m_maxTempMemSizeInSamples) := by
        have hs := subBatchSize_pos (n := 2) e.m_maxTempMemSizeInSamples (by decide)
        have := (numSubBatches_spec (n := 2) hs).1
        by_contra h0
        have h00 : numSubBatches 2 (subBatchSize 2 e.m_maxTempMemSizeInSamples) = 0 := by omega
        rw [h00] at this
        omega
      obtain ⟨j, hj⟩ := Nat.exists_eq_add_of_le hk
      show (afterPasses B e _ inp _ filter convOpt _ out _).tempMatrix.numRows = 9
      rw [show numSubBatches 2 (subBatchSize 2 e.m_maxTempMemSizeInSamples) = j + 1 by
        show numSubBatches 2 (subBatchSize 2 e.m_maxTempMemSizeInSamples) = j + 1
        omega]
      exact (afterPasses_temp B e _ inp _ filter convOpt _ out j).1

/-- Witness for C7: the scenario of the claim, input 4x4x1x2 and filter 3x3x1x2
with stride 1 and no padding, on the scaling backend with limit 1. -/
theorem forward_output_layout_witness :
    (1 : Nat) ≤ 2 ∧
    ∃ (st : ForwardState Int) (e1 : DefaultConvolutionEngine Int) (o : Mat Int),
      ForwardLoop scalingBackend
        { m_maxTempMemSizeInSamples := 1, m_tempMatrix := { numRows := 0, numCols := 0, data := [] } }
        { w := 4, h := 4, c := 1, n := 2 } { numRows := 16, numCols := 2, data := List.replicate 32 1 }
        { w := 3, h := 3, c := 1, n := 2 } { numRows := 2, numCols := 9, data := List.replicate 18 1 }
        { wStride := 1, hStride := 1, padding := false } { w := 2, h := 2, c := 2, n := 2 }
        { numRows := 0, numCols := 0, data := [] } = some st ∧
      (∀ p ∈ st.passes, p.tempRows = 9) ∧ e1.m_tempMatrix.numRows = 9 ∧
        o.numRows = 8 ∧ o.numCols = 2 := by
  refine ⟨by decide, ?_⟩
  obtain ⟨st, e1, o, h1, -, -, -, -, -, -, -, -, -, h2⟩ :=
    forward_output_layout scalingBackend
      { m_maxTempMemSizeInSamples := 1, m_tempMatrix := { numRows := 0, numCols := 0, data := [] } }
      { w := 4, h := 4, c := 1, n := 2 } { numRows := 16, numCols := 2, data := List.replicate 32 1 }
      { w := 3, h := 3, c := 1, n := 2 } { numRows := 2, numCols := 9, data := List.replicate 18 1 }
      { wStride := 1, hStride := 1, padding := false } { w := 2, h := 2, c := 2, n := 2 }
      { numRows := 0, numCols := 0, data := [] } (by decide)
  exact ⟨st, e1, o, h1, h2 rfl rfl rfl⟩

end DefaultConvolutionEngine

/-! ## Theorems: descriptors and the engine factory -/

/-- The conversion `static_cast<int>` keeps a value below 2^31. -/
theorem static_cast_int_of_lt (x : Nat) (h : x < 2 ^ 31) : static_cast_int x = (x : Int) := by
  unfold static_cast_int
  have hx : x % 2 ^ 32 = x := Nat.mod_eq_of_lt (by omega)
  rw [hx, if_pos h]

namespace CuDnnConvolutionEngineFactory

/-- In the accelerated build, when the vendor accepts both calls,
`CreateConvDescriptor` returns the descriptor with the given strides, the flag
`wPad == 0 && hPad == 0` and the native descriptor configured with the `int`
conversions of the two paddings and strides. -/
theorem createConvDescriptor_ok {α : Type} (V : Cudnn α) (inT : ConvolutionTensor4D)
    (filterT : ConvolutionFilter) (wStride hStride : Nat) (padding : Bool)
    (hcreate : V.cudnnCreateConvolutionDescriptor = CUDNN_STATUS_SUCCESS)
    (hset : V.cudnnSetConvolution2dDescriptor
      (static_cast_int (if padding then filterT.h / 2 else 0))
      (static_cast_int (if padding then filterT.w / 2 else 0))
      (static_cast_int hStride) (static_cast_int wStride) 1 1 CUDNN_CROSS_CORRELATION
        = CUDNN_STATUS_SUCCESS) :
    CreateConvDescriptor true V inT filterT wStride hStride padding =
      .ok { wStride := wStride, hStride := hStride
            padding := ((if padding then filterT.w / 2 else 0) == 0
              && (if padding then filterT.h / 2 else 0) == 0)
            m_conv := { pad_h := static_cast_int (if padding then filterT.h / 2 else 0)
                        pad_w := static_cast_int (if padding then filterT.w / 2 else 0)
                        u := static_cast_int hStride, v := static_cast_int wStride
                        upscalex := 1, upscaley := 1
                        mode := CUDNN_CROSS_CORRELATION } } := by
  simp only [CreateConvDescriptor, CuDnnConvolutionDescriptor.create, CUDNN_CALL, hcreate, hset,
    if_true, bind, Except.bind, pure, Except.pure]

/-- C8 (the code at a failing input). For a 3x3 filter with strides 1 and 1 on
a vendor library that accepts every call, `CreateConvDescriptor` returns a
descriptor with the given strides, but its padding flag is `false` when
`autoPad` is `true` and `true` when `autoPad` is `false`: the flag stored is
`wPad == 0 && hPad == 0`. -/
theorem createConvDescriptor_flag_inverted :
    (∃ d, CreateConvDescriptor true sampleCudnn { w := 4, h := 4, c := 1, n := 1 }
        { w := 3, h := 3, c := 1, k := 1 } 1 1 true = .ok d ∧
      d.wStride = 1 ∧ d.hStride = 1 ∧ d.padding = false) ∧
    (∃ d, CreateConvDescriptor true sampleCudnn { w := 4, h := 4, c := 1, n := 1 }
        { w := 3, h := 3, c := 1, k := 1 } 1 1 false = .ok d ∧
      d.wStride = 1 ∧ d.hStride = 1 ∧ d.padding = true) :=
  ⟨⟨_, rfl, rfl, rfl, rfl⟩, ⟨_, rfl, rfl, rfl, rfl⟩⟩

/-- C9 (counterexample). For a filter of width 2^32 + 3 and height 3 with
`autoPad` set, on a vendor library that accepts every call,
`CreateConvDescriptor` returns a descriptor whose native width padding is
-2147483647, the `int` conversion of `floor(w / 2) = 2^31 + 1`, and not
`floor(w / 2)`. -/
theorem createConvDescriptor_padding_truncated :
    ∃ d, CreateConvDescriptor true sampleCudnn { w := 4, h := 4, c := 1, n := 1 }
        { w := 2 ^ 32 + 3, h := 3, c := 1, k := 1 } 1 1 true = .ok d ∧
      d.m_conv.pad_w = -2147483647 ∧
      (2 ^ 32 + 3) / 2 = 2 ^ 31 + 1 ∧
      d.m_conv.pad_w ≠ (((2 ^ 32 + 3) / 2 : Nat) : Int) := by
  refine ⟨_, rfl, ?_, by decide, ?_⟩
  · decide
  · decide

/-- C9 (amended). Derived padding amounts: in the accelerated build, when the
vendor accepts the two calls of the constructor, `CreateConvDescriptor` returns
a descriptor whose native convolution descriptor has, as width and height
padding, the `int` conversions of `filterT.w / 2` and `filterT.h / 2` when
`padding` is set, which are `filterT.w / 2` and `filterT.h / 2` themselves
whenever these are below 2^31, and zero padding in both dimensions when it is
not set; and whatever the vendor answers, the result is the same for every
input tensor. -/
theorem createConvDescriptor_padding {α : Type} (V : Cudnn α) (inT inT2 : ConvolutionTensor4D)
    (filterT : ConvolutionFilter) (wStride hStride : Nat) (padding : Bool)
    (hcreate : V.cudnnCreateConvolutionDescriptor = CUDNN_STATUS_SUCCESS)
    (hset : V.cudnnSetConvolution2dDescriptor
      (static_cast_int (if padding then filterT.h / 2 else 0))
      (static_cast_int (if padding then filterT.w / 2 else 0))
      (static_cast_int hStride) (static_cast_int wStride) 1 1 CUDNN_CROSS_CORRELATION
        = CUDNN_STATUS_SUCCESS) :
    (∃ d, CreateConvDescriptor true V inT filterT wStride hStride padding = .ok d ∧
      (padding = true → d.m_conv.pad_w = static_cast_int (filterT.w / 2) ∧
        d.m_conv.pad_h = static_cast_int (filterT.h / 2)) ∧
      (padding = true → filterT.w / 2 < 2 ^ 31 → filterT.h / 2 < 2 ^ 31 →
        d.m_conv.pad_w = ((filterT.w / 2 : Nat) : Int) ∧
        d.m_conv.pad_h = ((filterT.h / 2 : Nat) : Int)) ∧
      (padding = false → d.m_conv.pad_w = 0 ∧ d.m_conv.pad_h = 0)) ∧
    CreateConvDescriptor true V inT2 filterT wStride hStride padding =
      CreateConvDescriptor true V inT filterT wStride hStride padding := by
  refine ⟨⟨_, createConvDescriptor_ok V inT filterT wStride hStride padding hcreate hset,
    ?_, ?_, ?_⟩, rfl⟩
  · intro hp; subst hp; exact ⟨rfl, rfl⟩
  · intro hp hw hh; subst hp
    exact ⟨static_cast_int_of_lt _ hw, static_cast_int_of_lt _ hh⟩
  · intro hp; subst hp; exact ⟨rfl, rfl⟩

/-- Witness for C9: a 5x3 filter with padding on the sample vendor library. -/
theorem createConvDescriptor_padding_witness :
    ∃ d, CreateConvDescriptor true sampleCudnn { w := 4, h := 4, c := 1, n := 1 }
        { w := 5, h := 3, c := 1, k := 1 } 1 1 true = .ok d ∧
      (true = true → d.m_conv.pad_w = static_cast_int (5 / 2) ∧
        d.m_conv.pad_h = static_cast_int (3 / 2)) ∧
      (true = true → 5 / 2 < 2 ^ 31 → 3 / 2 < 2 ^ 31 →
        d.m_conv.pad_w = ((5 / 2 : Nat) : Int) ∧ d.m_conv.pad_h = ((3 / 2 : Nat) : Int)) ∧
      (true = false → d.m_conv.pad_w = 0 ∧ d.m_conv.pad_h = 0) :=
  (createConvDescriptor_padding sampleCudnn { w := 4, h := 4, c := 1, n := 1 }
    { w := 8, h := 8, c := 3, n := 2 } { w := 5, h := 3, c := 1, k := 1 } 1 1 true rfl rfl).1

end CuDnnConvolutionEngineFactory

namespace ConvolutionEngine

/-- C10 (counterexample). On device 0 in the accelerated build, with a vendor
library whose `cudnnCreate` reports `CUDNN_STATUS_NOT_INITIALIZED`, `Create`
throws: it returns neither engine. -/
theorem create_fails_when_cudnnCreate_fails :
    Create true uninitializedCudnn 0 5 =
        .error (.CudaCallError "cuDNN" CUDNN_STATUS_NOT_INITIALIZED "cudnnCreate(&m_cudnn)") ∧
      ¬ ∃ eng, Create true uninitializedCudnn 0 5 = .ok eng := by
  refine ⟨rfl, ?_⟩
  rintro ⟨eng, h⟩
  have h2 : Create true uninitializedCudnn 0 5 =
      .error (.CudaCallError "cuDNN" CUDNN_STATUS_NOT_INITIALIZED "cudnnCreate(&m_cudnn)") := rfl
  rw [h2] at h
  cases h

/-- C10 (amended). `Create` selects the accelerated engine if and only if the
device identifier is `≥ 0` and `IsSupported()` holds.  When the accelerated
engine is selected and `cudnnCreate` and `cudnnSetStream` report success, it
returns that engine; otherwise the default engine is selected and returned.
`Create` fails exactly when the accelerated engine is selected and one of the
two vendor calls of its constructor reports a non-success status.  Every
engine returned carries the given limit and is the accelerated one exactly
when the device identifier is `≥ 0` and `IsSupported()` holds. -/
theorem create_selects {α : Type} (USE_CUDNN : Bool) (V : Cudnn α) (deviceId : Int)
    (maxTempMemSizeInSamples : Nat) :
    (deviceId ≥ 0 ∧ CuDnnConvolutionEngineFactory.IsSupported USE_CUDNN = true →
      V.cudnnCreate.1 = CUDNN_STATUS_SUCCESS →
      V.cudnnSetStream V.cudnnCreate.2 = CUDNN_STATUS_SUCCESS →
      ∃ e, Create USE_CUDNN V deviceId maxTempMemSizeInSamples = .ok (.cuDnn e) ∧
        e.m_maxTempMemSizeInSamples = maxTempMemSizeInSamples) ∧
    (¬ (deviceId ≥ 0 ∧ CuDnnConvolutionEngineFactory.IsSupported USE_CUDNN = true) →
      ∃ e, Create USE_CUDNN V deviceId maxTempMemSizeInSamples = .ok (.default e) ∧
        e.m_maxTempMemSizeInSamples = maxTempMemSizeInSamples) ∧
    ((∃ err, Create USE_CUDNN V deviceId maxTempMemSizeInSamples = .error err) ↔
      (deviceId ≥ 0 ∧ CuDnnConvolutionEngineFactory.IsSupported USE_CUDNN = true) ∧
        ¬ (V.cudnnCreate.1 = CUDNN_STATUS_SUCCESS ∧
          V.cudnnSetStream V.cudnnCreate.2 = CUDNN_STATUS_SUCCESS)) ∧
    (∀ eng, Create USE_CUDNN V deviceId maxTempMemSizeInSamples = .ok eng →
      eng.maxTempMemSizeInSamples = maxTempMemSizeInSamples ∧
      ((∃ e, eng = .cuDnn e) ↔
        deviceId ≥ 0 ∧ CuDnnConvolutionEngineFactory.IsSupported USE_CUDNN = true)) := by
  by_cases hsel : deviceId ≥ 0 ∧ CuDnnConvolutionEngineFactory.IsSupported USE_CUDNN = true
  · by_cases h1 : V.cudnnCreate.1 = CUDNN_STATUS_SUCCESS
    · by_cases h2 : V.cudnnSetStream V.cudnnCreate.2 = CUDNN_STATUS_SUCCESS
      · have hc : Create USE_CUDNN V deviceId maxTempMemSizeInSamples =
            .ok (.cuDnn
              { m_maxTempMemSizeInSamples := maxTempMemSizeInSamples
                m_cudnn := V.cudnnCreate.2
                m_tempC := { numRows := 0, numCols := 0, data := [] }
                m_fwdAlgo := { algo := 0, status := CUDNN_STATUS_NOT_INITIALIZED, memory := 0 }
                m_backDataAlgo :=
                  { algo := 0, status := CUDNN_STATUS_NOT_INITIALIZED, memory := 0 }
                m_backFiltAlgo :=
                  { algo := 0, status := CUDNN_STATUS_NOT_INITIALIZED, memory := 0 }
                calls := [] }) := by
          simp only [Create, hsel, and_self, if_true, CuDnnConvolutionEngine.create, CUDNN_CALL,
            h1, h2, bind, Except.bind, pure, Except.pure, Except.map]
        refine ⟨fun _ _ _ => ⟨_, hc, rfl⟩, fun h => absurd hsel h, ?_, ?_⟩
        · rw [hc]
          constructor
          · rintro ⟨err, h⟩; cases h
          · rintro ⟨-, h⟩; exact absurd ⟨h1, h2⟩ h
        · intro eng h
          rw [hc] at h
          cases h
          exact ⟨rfl, ⟨fun _ => hsel, fun _ => ⟨_, rfl⟩⟩⟩
      · have hc : Create USE_CUDNN V deviceId maxTempMemSizeInSamples =
            .error (.CudaCallError "cuDNN" (V.cudnnSetStream V.cudnnCreate.2)
              "cudnnSetStream(m_cudnn, GetStream())") := by
          simp only [Create, hsel, and_self, if_true, CuDnnConvolutionEngine.create, CUDNN_CALL,
            h1, h2, if_false, bind, Except.bind, pure, Except.pure, Except.map]
        refine ⟨fun _ _ h => absurd h h2, fun h => absurd hsel h, ?_, ?_⟩
        · rw [hc]
          exact ⟨fun _ => ⟨hsel, fun h => h2 h.2⟩, fun _ => ⟨_, rfl⟩⟩
        · intro eng h
          rw [hc] at h
          cases h
    · have hc : Create USE_CUDNN V deviceId maxTempMemSizeInSamples =
          .error (.CudaCallError "cuDNN" V.cudnnCreate.1 "cudnnCreate(&m_cudnn)") := by
        simp only [Create, hsel, and_self, if_true, CuDnnConvolutionEngine.create, CUDNN_CALL,
          h1, if_false, bind, Except.bind, pure, Except.pure, Except.map]
      refine ⟨fun _ h _ => absurd h h1, fun h => absurd hsel h, ?_, ?_⟩
      · rw [hc]
        exact ⟨fun _ => ⟨hsel, fun h => h1 h.1⟩, fun _ => ⟨_, rfl⟩⟩
      · intro eng h
        rw [hc] at h
        cases h
  · have hc : Create USE_CUDNN V deviceId maxTempMemSizeInSamples =
        .ok (.default (DefaultConvolutionEngine.create deviceId maxTempMemSizeInSamples)) := by
      simp only [Create, hsel, if_false]
    refine ⟨fun h => absurd h hsel, fun _ => ⟨_, hc, rfl⟩, ?_, ?_⟩
    · rw [hc]
      constructor
      · rintro ⟨err, h⟩; cases h
      · rintro ⟨h, -⟩; exact absurd h hsel
    · intro eng h
      rw [hc] at h
      cases h
      refine ⟨rfl, ⟨?_, fun h => absurd h hsel⟩⟩
      rintro ⟨e, h⟩
      cases h

/-- Witness for C10: device 0 in the accelerated build on the sample vendor
library gives the accelerated engine with the limit 5. -/
theorem create_selects_witness :
    ∃ e, Create true sampleCudnn 0 5 = .ok (.cuDnn e) ∧ e.m_maxTempMemSizeInSamples = 5 :=
  (create_selects true sampleCudnn 0 5).1 ⟨by decide, rfl⟩ rfl rfl

end ConvolutionEngine

/-! ## Theorems: algorithm selection in the cuDNN engine -/

namespace CuDnnConvolutionEngine

section Selection

variable {α : Type}

end Selection

/-- The budget at a limit beyond the range of `size_t`.  With the limit 2^62, a
2x2x1 input tensor and 4-byte elements the product `w*h*c * limit * element
size` is 2^66, and the budget the code computes in `size_t` is 2^66 modulo
2^64 = 0.  The search returns the candidates of the sample vendor library with
success; none of them needs 0 bytes, so `FindBestForwardAlgo` stores nothing
and throws, although the second candidate (4096 bytes) is within the product
taken in the natural numbers. -/
theorem findBest_budget_wraps :
    hugeLimitEngine.m_fwdAlgo.status ≠ CUDNN_STATUS_SUCCESS ∧
    sampleCudnn.cudnnFindConvolutionForwardAlgorithm hugeLimitEngine.m_cudnn sampleTensor
        sampleFilter sampleConvDesc sampleTensor MaxAlgoCount =
      (CUDNN_STATUS_SUCCESS,
        [{ algo := 0, status := CUDNN_STATUS_NOT_SUPPORTED, memory := 0 }] ++
          { algo := 1, status := CUDNN_STATUS_SUCCESS, memory := 4096 } ::
            [{ algo := 2, status := CUDNN_STATUS_SUCCESS, memory := 16 }]) ∧
    hugeLimitEngine.m_maxTempMemSizeInSamples ≠ 0 ∧
    CUDNN_STATUS_NOT_SUPPORTED ≠ CUDNN_STATUS_SUCCESS ∧
    (4096 : Nat) ≤ sampleTensor.w * sampleTensor.h * sampleTensor.c *
      hugeLimitEngine.m_maxTempMemSizeInSamples * 4 ∧
    (FindBestForwardAlgo sampleCudnn 4 hugeLimitEngine sampleTensor sampleFilter sampleConvDesc
      sampleTensor).1 = .error (.RuntimeError msgForward) ∧
    (FindBestForwardAlgo sampleCudnn 4 hugeLimitEngine sampleTensor sampleFilter sampleConvDesc
      sampleTensor).2.m_fwdAlgo = hugeLimitEngine.m_fwdAlgo ∧
    (sampleTensor.w * sampleTensor.h * sampleTensor.c *
      hugeLimitEngine.m_maxTempMemSizeInSamples * 4) % 2 ^ 64 = 0 := by
  refine ⟨by decide, rfl, by decide, by decide, by decide, ?_, ?_, by decide⟩
  · rfl
  · rfl

section Budget

variable {α : Type} [Inhabited α] [Zero α] [One α]

end Budget

section BudgetBackward

variable {α : Type} [Inhabited α] [One α]

end BudgetBackward

section Cache

variable {α : Type}

/-- The function `FindBestForwardAlgo` on a slot not yet found: it records the search, and
either throws and leaves the slot, or stores a candidate of status success. -/
theorem findBestForwardAlgo_cases (V : Cudnn α) (elemSize : Nat) (e : CuDnnConvolutionEngine α)
    (inT : CuDnnTensor4D) (filtT : CuDnnFilter) (convDesc : CuDnnConvolutionDescriptor)
    (outT : CuDnnTensor4D) (hst : e.m_fwdAlgo.status ≠ CUDNN_STATUS_SUCCESS) :
    (∃ err, FindBestForwardAlgo V elemSize e inT filtT convDesc outT =
      (.error err, { e with calls := e.calls ++ [CudnnCall.FindConvolutionForwardAlgorithm] })) ∨
    (∃ res, res.status = CUDNN_STATUS_SUCCESS ∧
      FindBestForwardAlgo V elemSize e inT filtT convDesc outT =
        (.ok (), { e with calls := e.calls ++ [CudnnCall.FindConvolutionForwardAlgorithm]
                          m_fwdAlgo := res })) := by
  simp only [FindBestForwardAlgo, hst, if_false]
  split
  · exact Or.inl ⟨_, rfl⟩
  · split
    · exact Or.inl ⟨_, rfl⟩
    · rename_i res hfind
      have hq := List.find?_some hfind
      exact Or.inr ⟨res, (of_decide_eq_true hq).1, rfl⟩

theorem forward_of_findBest_ok [Inhabited α] [Zero α] [One α] (V : Cudnn α) (elemSize : Nat)
    (e e1 : CuDnnConvolutionEngine α)
    (inT : CuDnnTensor4D) (inp : Mat α) (filterT : CuDnnFilter) (filter : Mat α)
    (convDesc : CuDnnConvolutionDescriptor) (outT : CuDnnTensor4D) (out : Mat α)
    (hF : FindBestForwardAlgo V elemSize e inT filterT convDesc outT = (.ok (), e1)) :
    (Forward V elemSize e inT inp filterT filter convDesc outT out).2.1.m_fwdAlgo
      = e1.m_fwdAlgo ∧
    (Forward V elemSize e inT inp filterT filter convDesc outT out).2.1.m_backDataAlgo
      = e1.m_backDataAlgo ∧
    (Forward V elemSize e inT inp filterT filter convDesc outT out).2.1.m_backFiltAlgo
      = e1.m_backFiltAlgo ∧
    (Forward V elemSize e inT inp filterT filter convDesc outT out).2.1.calls
      = e1.calls ++ [CudnnCall.ConvolutionForward 1 0 e1.m_fwdAlgo.algo e1.m_fwdAlgo.memory] ∧
    (Forward V elemSize e inT inp filterT filter convDesc outT out).2.1.m_tempC
      = (if e1.m_fwdAlgo.memory > 0
          then e1.m_tempC.Resize ((e1.m_fwdAlgo.memory + elemSize - 1) / elemSize) 1
          else e1.m_tempC) ∧
    (Forward V elemSize e inT inp filterT filter convDesc outT out).2.2.data
      = (V.cudnnConvolutionForward e1.m_cudnn 1 inT inp.data filterT filter.data convDesc
          e1.m_fwdAlgo.algo
          (if e1.m_fwdAlgo.memory > 0
            then e1.m_tempC.Resize ((e1.m_fwdAlgo.memory + elemSize - 1) / elemSize) 1
            else e1.m_tempC)
          e1.m_fwdAlgo.memory 0 outT out.data).2 ∧
    ∃ expr, (Forward V elemSize e inT inp filterT filter convDesc outT out).1
      = CUDNN_CALL (V.cudnnConvolutionForward e1.m_cudnn 1 inT inp.data filterT filter.data
          convDesc e1.m_fwdAlgo.algo
          (if e1.m_fwdAlgo.memory > 0
            then e1.m_tempC.Resize ((e1.m_fwdAlgo.memory + elemSize - 1) / elemSize) 1
            else e1.m_tempC)
          e1.m_fwdAlgo.memory 0 outT out.data).1 expr := by
  by_cases hm : e1.m_fwdAlgo.memory > 0
  · refine ⟨?_, ?_, ?_, ?_, ?_, ?_, ?_⟩ <;> simp only [Forward, hF, hm, if_true]
    exact ⟨_, rfl⟩
  · refine ⟨?_, ?_, ?_, ?_, ?_, ?_, ?_⟩ <;> simp only [Forward, hF, hm, if_false]
    exact ⟨_, rfl⟩

/-- The function `FindBestBackwardDataAlgo` on a slot not yet found: it records the search, and either
throws and leaves the slot, or stores a candidate of status success. -/
theorem findBestBackwardDataAlgo_cases (V : Cudnn α) (elemSize : Nat) (e : CuDnnConvolutionEngine α)
    (filterT : CuDnnFilter) (srcGradT : CuDnnTensor4D) (convDesc : CuDnnConvolutionDescriptor) (gradT : CuDnnTensor4D)
    (hst : e.m_backDataAlgo.status ≠ CUDNN_STATUS_SUCCESS) :
    (∃ err, FindBestBackwardDataAlgo V elemSize e filterT srcGradT convDesc gradT =
      (.error err, { e with calls := e.calls ++ [CudnnCall.FindConvolutionBackwardDataAlgorithm] })) ∨
    (∃ res, res.status = CUDNN_STATUS_SUCCESS ∧
      FindBestBackwardDataAlgo V elemSize e filterT srcGradT convDesc gradT =
        (.ok (), { e with calls := e.calls ++ [CudnnCall.FindConvolutionBackwardDataAlgorithm]
                          m_backDataAlgo := res })) := by
  simp only [FindBestBackwardDataAlgo, hst, if_false]
  split
  · exact Or.inl ⟨_, rfl⟩
  · split
    · exact Or.inl ⟨_, rfl⟩
    · rename_i res hfind
      have hq := List.find?_some hfind
      exact Or.inr ⟨res, (of_decide_eq_true hq).1, rfl⟩

theorem backwardData_of_findBest_ok [Inhabited α] [One α] (V : Cudnn α) (elemSize : Nat)
    (e e1 : CuDnnConvolutionEngine α)
    (srcGradT : CuDnnTensor4D) (srcGrad : Mat α) (filterT : CuDnnFilter) (filter : Mat α)
    (convDesc : CuDnnConvolutionDescriptor) (gradT : CuDnnTensor4D) (grad : Mat α)
    (hF : FindBestBackwardDataAlgo V elemSize e filterT srcGradT convDesc gradT = (.ok (), e1)) :
    (BackwardData V elemSize e srcGradT srcGrad filterT filter convDesc gradT grad).2.1.m_backDataAlgo
      = e1.m_backDataAlgo ∧
    (BackwardData V elemSize e srcGradT srcGrad filterT filter convDesc gradT grad).2.1.m_fwdAlgo
      = e1.m_fwdAlgo ∧
    (BackwardData V elemSize e srcGradT srcGrad filterT filter convDesc gradT grad).2.1.m_backFiltAlgo
      = e1.m_backFiltAlgo ∧
    (BackwardData V elemSize e srcGradT srcGrad filterT filter convDesc gradT grad).2.1.calls
      = e1.calls ++ [CudnnCall.ConvolutionBackwardData 1 1 e1.m_backDataAlgo.algo e1.m_backDataAlgo.memory] ∧
    (BackwardData V elemSize e srcGradT srcGrad filterT filter convDesc gradT grad).2.1.m_tempC
      = (if e1.m_backDataAlgo.memory > 0
          then e1.m_tempC.Resize ((e1.m_backDataAlgo.memory + elemSize - 1) / elemSize) 1
          else e1.m_tempC) ∧
    (BackwardData V elemSize e srcGradT srcGrad filterT filter convDesc gradT grad).2.2.data
      = (V.cudnnConvolutionBackwardData e1.m_cudnn 1 filterT filter.data srcGradT srcGrad.data
          convDesc e1.m_backDataAlgo.algo
          (if e1.m_backDataAlgo.memory > 0
            then e1.m_tempC.Resize ((e1.m_backDataAlgo.memory + elemSize - 1) / elemSize) 1
            else e1.m_tempC)
          e1.m_backDataAlgo.memory 1 gradT grad.data).2 ∧
    ∃ expr, (BackwardData V elemSize e srcGradT srcGrad filterT filter convDesc gradT grad).1
      = CUDNN_CALL (V.cudnnConvolutionBackwardData e1.m_cudnn 1 filterT filter.data srcGradT srcGrad.data
          convDesc e1.m_backDataAlgo.algo
          (if e1.m_backDataAlgo.memory > 0
            then e1.m_tempC.Resize ((e1.m_backDataAlgo.memory + elemSize - 1) / elemSize) 1
            else e1.m_tempC)
          e1.m_backDataAlgo.memory 1 gradT grad.data).1 expr := by
  by_cases hm : e1.m_backDataAlgo.memory > 0
  · refine ⟨?_, ?_, ?_, ?_, ?_, ?_, ?_⟩ <;> simp only [BackwardData, hF, hm, if_true]
    exact ⟨_, rfl⟩
  · refine ⟨?_, ?_, ?_, ?_, ?_, ?_, ?_⟩ <;> simp only [BackwardData, hF, hm, if_false]
    exact ⟨_, rfl⟩

/-- The function `FindBestBackwardFilterAlgo` on a slot not yet found: it records the search, and either
throws and leaves the slot, or stores a candidate of status success. -/
theorem findBestBackwardFilterAlgo_cases (V : Cudnn α) (elemSize : Nat) (e : CuDnnConvolutionEngine α)
    (inT : CuDnnTensor4D) (srcGradT : CuDnnTensor4D) (convDesc : CuDnnConvolutionDescriptor) (filterT : CuDnnFilter)
    (hst : e.m_backFiltAlgo.status ≠ CUDNN_STATUS_SUCCESS) :
    (∃ err, FindBestBackwardFilterAlgo V elemSize e inT srcGradT convDesc filterT =
      (.error err, { e with calls := e.calls ++ [CudnnCall.FindConvolutionBackwardFilterAlgorithm] })) ∨
    (∃ res, res.status = CUDNN_STATUS_SUCCESS ∧
      FindBestBackwardFilterAlgo V elemSize e inT srcGradT convDesc filterT =
        (.ok (), { e with calls := e.calls ++ [CudnnCall.FindConvolutionBackwardFilterAlgorithm]
                          m_backFiltAlgo := res })) := by
  simp only [FindBestBackwardFilterAlgo, hst, if_false]
  split
  · exact Or.inl ⟨_, rfl⟩
  · split
    · exact Or.inl ⟨_, rfl⟩
    · rename_i res hfind
      have hq := List.find?_some hfind
      exact Or.inr ⟨res, (of_decide_eq_true hq).1, rfl⟩

theorem backwardFilter_of_findBest_ok [Inhabited α] [One α] (V : Cudnn α) (elemSize : Nat)
    (e e1 : CuDnnConvolutionEngine α)
    (srcGradT : CuDnnTensor4D) (srcGrad : Mat α) (inT : CuDnnTensor4D) (inp : Mat α)
    (convDesc : CuDnnConvolutionDescriptor) (filterT : CuDnnFilter) (filter : Mat α)
    (allowReuse : Bool)
    (hF : FindBestBackwardFilterAlgo V elemSize e inT srcGradT convDesc filterT = (.ok (), e1)) :
    (BackwardFilter V elemSize e srcGradT srcGrad inT inp convDesc filterT filter allowReuse).2.1.m_backFiltAlgo
      = e1.m_backFiltAlgo ∧
    (BackwardFilter V elemSize e srcGradT srcGrad inT inp convDesc filterT filter allowReuse).2.1.m_fwdAlgo
      = e1.m_fwdAlgo ∧
    (BackwardFilter V elemSize e srcGradT srcGrad inT inp convDesc filterT filter allowReuse).2.1.m_backDataAlgo
      = e1.m_backDataAlgo ∧
    (BackwardFilter V elemSize e srcGradT srcGrad inT inp convDesc filterT filter allowReuse).2.1.calls
      = e1.calls ++ [CudnnCall.ConvolutionBackwardFilter 1 1 e1.m_backFiltAlgo.algo e1.m_backFiltAlgo.memory] ∧
    (BackwardFilter V elemSize e srcGradT srcGrad inT inp convDesc filterT filter allowReuse).2.1.m_tempC
      = (if e1.m_backFiltAlgo.memory > 0
          then e1.m_tempC.Resize ((e1.m_backFiltAlgo.memory + elemSize - 1) / elemSize) 1
          else e1.m_tempC) ∧
    (BackwardFilter V elemSize e srcGradT srcGrad inT inp convDesc filterT filter allowReuse).2.2.data
      = (V.cudnnConvolutionBackwardFilter e1.m_cudnn 1 inT inp.data srcGradT srcGrad.data
          convDesc e1.m_backFiltAlgo.algo
          (if e1.m_backFiltAlgo.memory > 0
            then e1.m_tempC.Resize ((e1.m_backFiltAlgo.memory + elemSize - 1) / elemSize) 1
            else e1.m_tempC)
          e1.m_backFiltAlgo.memory 1 filterT filter.data).2 ∧
    ∃ expr, (BackwardFilter V elemSize e srcGradT srcGrad inT inp convDesc filterT filter allowReuse).1
      = CUDNN_CALL (V.cudnnConvolutionBackwardFilter e1.m_cudnn 1 inT inp.data srcGradT srcGrad.data
          convDesc e1.m_backFiltAlgo.algo
          (if e1.m_backFiltAlgo.memory > 0
            then e1.m_tempC.Resize ((e1.m_backFiltAlgo.memory + elemSize - 1) / elemSize) 1
            else e1.m_tempC)
          e1.m_backFiltAlgo.memory 1 filterT filter.data).1 expr := by
  by_cases hm : e1.m_backFiltAlgo.memory > 0
  · refine ⟨?_, ?_, ?_, ?_, ?_, ?_, ?_⟩ <;> simp only [BackwardFilter, hF, hm, if_true]
    exact ⟨_, rfl⟩
  · refine ⟨?_, ?_, ?_, ?_, ?_, ?_, ?_⟩ <;> simp only [BackwardFilter, hF, hm, if_false]
    exact ⟨_, rfl⟩

end Cache

section Accumulation

variable {α : Type}

end Accumulation

end CuDnnConvolutionEngine

/-! ## Theorems: the build without `USE_CUDNN`, and the batch-size mutator -/

namespace CuDnnConvolutionEngineFactory

/-- C11. Build without acceleration support: `IsSupported()` returns false, and
`CreateTensor`, `CreateFilter`, `CreateConvDescriptor`, `CreatePoolDescriptor`,
`CreateConvEngine` and `CreatePoolEngine` each fail with the error "The code
is compiled without USE_CUDNN macro." for every argument and whatever the
vendor library would answer; none of them returns an object. -/
theorem factory_without_cudnn {α : Type} (V : Cudnn α) (P : CudnnPooling)
    (dataType : cudnnDataType_t) (w h c n k wStride hStride wPad hPad : Nat)
    (inT : ConvolutionTensor4D) (filterT : ConvolutionFilter) (padding : Bool)
    (kind : PoolKind) (m_deviceId : Int) (maxTempMemSizeInSamples : Nat) :
    IsSupported false = false ∧
    CreateTensor false V dataType w h c n =
      .error (.RuntimeError "The code is compiled without USE_CUDNN macro.") ∧
    CreateFilter false V dataType w h c k =
      .error (.RuntimeError "The code is compiled without USE_CUDNN macro.") ∧
    CreateConvDescriptor false V inT filterT wStride hStride padding =
      .error (.RuntimeError "The code is compiled without USE_CUDNN macro.") ∧
    CreatePoolDescriptor false P kind w h wStride hStride wPad hPad =
      .error (.RuntimeError "The code is compiled without USE_CUDNN macro.") ∧
    CreateConvEngine false V m_deviceId maxTempMemSizeInSamples =
      .error (.RuntimeError "The code is compiled without USE_CUDNN macro.") ∧
    CreatePoolEngine false V =
      .error (.RuntimeError "The code is compiled without USE_CUDNN macro.") ∧
    (∀ t, CreateTensor false V dataType w h c n ≠ .ok t) ∧
    (∀ f, CreateFilter false V dataType w h c k ≠ .ok f) ∧
    (∀ d, CreateConvDescriptor false V inT filterT wStride hStride padding ≠ .ok d) ∧
    (∀ d, CreatePoolDescriptor false P kind w h wStride hStride wPad hPad ≠ .ok d) ∧
    (∀ e, CreateConvEngine false V m_deviceId maxTempMemSizeInSamples ≠ .ok e) ∧
    (∀ e, CreatePoolEngine false V ≠ .ok e) := by
  refine ⟨rfl, rfl, rfl, rfl, rfl, rfl, rfl, ?_, ?_, ?_, ?_, ?_, ?_⟩
  · intro t ht
    have h : CreateTensor false V dataType w h c n
        = .error (.RuntimeError withoutCudnnMessage) := rfl
    rw [h] at ht
    cases ht
  · intro f hf
    have h : CreateFilter false V dataType w h c k
        = .error (.RuntimeError withoutCudnnMessage) := rfl
    rw [h] at hf
    cases hf
  · intro d hd
    have h : CreateConvDescriptor false V inT filterT wStride hStride padding
        = .error (.RuntimeError withoutCudnnMessage) := rfl
    rw [h] at hd
    cases hd
  · intro d hd
    have h : CreatePoolDescriptor false P kind w h wStride hStride wPad hPad
        = .error (.RuntimeError withoutCudnnMessage) := rfl
    rw [h] at hd
    cases hd
  · intro e he
    have h : CreateConvEngine false V m_deviceId maxTempMemSizeInSamples
        = .error (.RuntimeError withoutCudnnMessage) := rfl
    rw [h] at he
    cases he
  · intro e he
    have h : CreatePoolEngine false V = .error (.RuntimeError withoutCudnnMessage) := rfl
    rw [h] at he
    cases he

end CuDnnConvolutionEngineFactory

namespace CuDnnTensor4D

theorem create_ok {α : Type} (V : Cudnn α) (w h c n : Nat) (dataType : cudnnDataType_t)
    (t : CuDnnTensor4D) (hcreate : create V w h c n dataType = .ok t) :
    t = { w := w, h := h, c := c, n := n, m_dataType := dataType,
          m_tensor := { format := TENSOR_FORMAT, dataType := dataType,
                        n := static_cast_int n, c := static_cast_int c,
                        h := static_cast_int h, w := static_cast_int w } } := by
  simp only [create, CUDNN_CALL, bind, Except.bind, pure, Except.pure] at hcreate
  split at hcreate
  · cases hcreate
  · split at hcreate
    · cases hcreate
    · cases hcreate
      rfl

/-- When the vendor accepts the call, `setN` returns normally with the native
descriptor configured with the `int` conversions of the four extents. -/
theorem setN_ok {α : Type} (V : Cudnn α) (t : CuDnnTensor4D) (newN : Nat)
    (hset : V.cudnnSetTensor4dDescriptor CUDNN_TENSOR_NCHW t.m_dataType (static_cast_int newN)
        (static_cast_int t.c) (static_cast_int t.h) (static_cast_int t.w)
          = CUDNN_STATUS_SUCCESS) :
    (t.setN V newN).1 = .ok () ∧
    (t.setN V newN).2.m_tensor =
      { format := CUDNN_TENSOR_NCHW, dataType := t.m_dataType,
        n := static_cast_int newN, c := static_cast_int t.c,
        h := static_cast_int t.h, w := static_cast_int t.w } := by
  constructor <;>
    simp only [setN, ConvolutionTensor4D.setN, TENSOR_FORMAT, CUDNN_CALL, hset, if_true]

/-- C12 (counterexample). The sample 2x2x1x1 tensor, on a vendor library that
accepts every call: `setN(2^32 + 8)` returns normally and the tensor reports
`n() = 2^32 + 8`, but the native descriptor was configured with batch size 8,
the `int` conversion of `2^32 + 8`. -/
theorem setN_truncates :
    (sampleTensor.setN sampleCudnn (2 ^ 32 + 8)).1 = .ok () ∧
    (sampleTensor.setN sampleCudnn (2 ^ 32 + 8)).2.n = 2 ^ 32 + 8 ∧
    (sampleTensor.setN sampleCudnn (2 ^ 32 + 8)).2.m_tensor =
      { format := CUDNN_TENSOR_NCHW, dataType := CUDNN_DATA_FLOAT, n := 8, c := 1, h := 2, w := 2 } ∧
    (sampleTensor.setN sampleCudnn (2 ^ 32 + 8)).2.m_tensor.n ≠ ((2 ^ 32 + 8 : Nat) : Int) := by
  refine ⟨rfl, rfl, ?_, ?_⟩
  · decide
  · decide

/-- C12 (amended). Batch-size mutation of an accelerated tensor descriptor.  Let
`t` be the tensor constructed for `(w, h, c, n)` and a data type; its native
descriptor is configured with format NCHW, the data type and the `int`
conversions of `(n, c, h, w)`.  Whatever the vendor answers, after
`setN(newN)` the tensor reports `n() = newN` with `w()`, `h()`, `c()` and the
data type unchanged, and the outcome of the call is that of
`cudnnSetTensor4dDescriptor` issued in that call with the same format, the data
type and the `int` conversions of `(newN, c, h, w)`.  When the vendor accepts
that call, `setN` returns normally and the native descriptor holds NCHW, the
data type and those conversions, which are `(newN, c, h, w)` themselves
whenever the four are below 2^31. -/
theorem setN_reconfigures {α : Type} (V V2 : Cudnn α) (w h c n newN : Nat)
    (dataType : cudnnDataType_t) (t : CuDnnTensor4D)
    (hcreate : create V w h c n dataType = .ok t) :
    t.m_tensor = { format := CUDNN_TENSOR_NCHW, dataType := dataType,
                   n := static_cast_int n, c := static_cast_int c,
                   h := static_cast_int h, w := static_cast_int w } ∧
    (t.setN V2 newN).2.n = newN ∧
    (t.setN V2 newN).2.w = w ∧ (t.setN V2 newN).2.h = h ∧ (t.setN V2 newN).2.c = c ∧
    (t.setN V2 newN).2.m_dataType = dataType ∧
    (∃ expr, (t.setN V2 newN).1 =
      CUDNN_CALL (V2.cudnnSetTensor4dDescriptor CUDNN_TENSOR_NCHW dataType (static_cast_int newN)
        (static_cast_int c) (static_cast_int h) (static_cast_int w)) expr) ∧
    (V2.cudnnSetTensor4dDescriptor CUDNN_TENSOR_NCHW dataType (static_cast_int newN)
        (static_cast_int c) (static_cast_int h) (static_cast_int w) = CUDNN_STATUS_SUCCESS →
      (t.setN V2 newN).1 = .ok () ∧
      (t.setN V2 newN).2.m_tensor = { format := CUDNN_TENSOR_NCHW, dataType := dataType,
                                      n := static_cast_int newN, c := static_cast_int c,
                                      h := static_cast_int h, w := static_cast_int w }) ∧
    (V2.cudnnSetTensor4dDescriptor CUDNN_TENSOR_NCHW dataType (static_cast_int newN)
        (static_cast_int c) (static_cast_int h) (static_cast_int w) ≠ CUDNN_STATUS_SUCCESS →
      (t.setN V2 newN).1 ≠ .ok () ∧ (t.setN V2 newN).2.m_tensor = t.m_tensor) ∧
    (newN < 2 ^ 31 → c < 2 ^ 31 → h < 2 ^ 31 → w < 2 ^ 31 →
      V2.cudnnSetTensor4dDescriptor CUDNN_TENSOR_NCHW dataType (newN : Int) (c : Int) (h : Int)
        (w : Int) = CUDNN_STATUS_SUCCESS →
      (t.setN V2 newN).1 = .ok () ∧
      (t.setN V2 newN).2.m_tensor = { format := CUDNN_TENSOR_NCHW, dataType := dataType,
                                      n := (newN : Int), c := (c : Int),
                                      h := (h : Int), w := (w : Int) }) := by
  have ht := create_ok V w h c n dataType t hcreate
  have hsucc := setN_ok V2 t newN
  subst ht
  refine ⟨rfl, ?_, ?_, ?_, ?_, ?_, ?_, hsucc, ?_, ?_⟩
  · simp only [setN, ConvolutionTensor4D.setN]; split <;> rfl
  · simp only [setN, ConvolutionTensor4D.setN]; split <;> rfl
  · simp only [setN, ConvolutionTensor4D.setN]; split <;> rfl
  · simp only [setN, ConvolutionTensor4D.setN]; split <;> rfl
  · simp only [setN, ConvolutionTensor4D.setN]; split <;> rfl
  · by_cases hset : V2.cudnnSetTensor4dDescriptor CUDNN_TENSOR_NCHW dataType
        (static_cast_int newN) (static_cast_int c) (static_cast_int h) (static_cast_int w)
          = CUDNN_STATUS_SUCCESS
    · simp only [setN, ConvolutionTensor4D.setN, TENSOR_FORMAT, CUDNN_CALL, hset, if_true]
      exact ⟨"", trivial⟩
    · simp only [setN, ConvolutionTensor4D.setN, TENSOR_FORMAT, CUDNN_CALL, hset, if_false]
      exact ⟨_, rfl⟩
  · intro hset
    constructor
    · simp only [setN, ConvolutionTensor4D.setN, TENSOR_FORMAT, CUDNN_CALL, hset, if_false]
      intro hc; cases hc
    · simp only [setN, ConvolutionTensor4D.setN, TENSOR_FORMAT, CUDNN_CALL, hset, if_false]
  · intro hn hc hh hw hset
    rw [← static_cast_int_of_lt newN hn, ← static_cast_int_of_lt c hc,
      ← static_cast_int_of_lt h hh, ← static_cast_int_of_lt w hw] at hset ⊢
    exact hsucc hset

/-- Witness for C12: the sample 2x2x1x1 tensor, resized to a batch of 8. -/
theorem setN_reconfigures_witness :
    (sampleTensor.setN sampleCudnn 8).2.n = 8 ∧
    (sampleTensor.setN sampleCudnn 8).2.m_tensor =
      { format := CUDNN_TENSOR_NCHW, dataType := CUDNN_DATA_FLOAT, n := ((8 : Nat) : Int),
        c := ((1 : Nat) : Int), h := ((2 : Nat) : Int), w := ((2 : Nat) : Int) } :=
  ⟨(setN_reconfigures sampleCudnn sampleCudnn 2 2 1 1 8 CUDNN_DATA_FLOAT sampleTensor rfl).2.1,
    ((setN_reconfigures sampleCudnn sampleCudnn 2 2 1 1 8 CUDNN_DATA_FLOAT sampleTensor
      rfl).2.2.2.2.2.2.2.2.2 (by decide) (by decide) (by decide) (by decide) rfl).2⟩

end CuDnnTensor4D

/-! ## Theorems: arithmetic of the sub-batch loop and workspace sizing -/

namespace DefaultConvolutionEngine

theorem numSubBatches_pos {n s : Nat} (hn : 1 ≤ n) (hs : 1 ≤ s) : 1 ≤ numSubBatches n s := by
  have h := (numSubBatches_spec (n := n) hs).1
  by_contra h0
  have h00 : numSubBatches n s = 0 := by omega
  rw [h00] at h
  omega

/-- C14. Arithmetic safety of the sub-batch loop of `DefaultConvolutionEngine::Forward`.
For a batch of `inT.n ≥ 1` samples and every limit: the sub-batch size is at
least 1, so the division that computes the number of sub-batches has a
non-zero divisor and the call returns; the number of sub-batches is at least
1; for every loop index `i` below it the start sample `i * subBatchSize` is
below `n`, so `endSampleId - startSampleId` does not underflow and is at least
1; and every pass the call makes starts below `n`, ends no earlier than it
starts and has at least one sample.  For a batch of 0 samples the sub-batch
size is 0 for every limit and the division is by zero: the call does not
return. -/
theorem forward_arithmetic_safety {α : Type} [Inhabited α] (B : MatrixBackend α)
    (e : DefaultConvolutionEngine α)
    (inT inT0 : ConvolutionTensor4D) (inp : Mat α) (filterT : ConvolutionTensor4D)
    (filter : Mat α) (convOpt : ConvolutionDescriptor) (outT : ConvolutionTensor4D)
    (out : Mat α) (hn : 1 ≤ inT.n) :
    1 ≤ subBatchSize inT.n e.m_maxTempMemSizeInSamples ∧
    1 ≤ numSubBatches inT.n (subBatchSize inT.n e.m_maxTempMemSizeInSamples) ∧
    (∀ i, i < numSubBatches inT.n (subBatchSize inT.n e.m_maxTempMemSizeInSamples) →
      i * subBatchSize inT.n e.m_maxTempMemSizeInSamples < inT.n ∧
      i * subBatchSize inT.n e.m_maxTempMemSizeInSamples ≤
        min inT.n (i * subBatchSize inT.n e.m_maxTempMemSizeInSamples + subBatchSize inT.n e.m_maxTempMemSizeInSamples) ∧
      1 ≤ min inT.n (i * subBatchSize inT.n e.m_maxTempMemSizeInSamples + subBatchSize inT.n e.m_maxTempMemSizeInSamples)
        - i * subBatchSize inT.n e.m_maxTempMemSizeInSamples) ∧
    (∃ st : ForwardState α,
      ForwardLoop B e inT inp filterT filter convOpt outT out = some st ∧
      (Forward B e inT inp filterT filter convOpt outT out).isSome = true ∧
      ∀ p ∈ st.passes, p.startSampleId < inT.n ∧ p.startSampleId ≤ p.endSampleId ∧
        p.smallBatchSize = p.endSampleId - p.startSampleId ∧ 1 ≤ p.smallBatchSize) ∧
    (inT0.n = 0 →
      subBatchSize inT0.n e.m_maxTempMemSizeInSamples = 0 ∧
      ForwardLoop B e inT0 inp filterT filter convOpt outT out = none ∧
      Forward B e inT0 inp filterT filter convOpt outT out = none) := by
  have hs := subBatchSize_pos e.m_maxTempMemSizeInSamples hn
  have hidx : ∀ i, i < numSubBatches inT.n (subBatchSize inT.n e.m_maxTempMemSizeInSamples) →
      i * subBatchSize inT.n e.m_maxTempMemSizeInSamples < inT.n ∧
      i * subBatchSize inT.n e.m_maxTempMemSizeInSamples ≤
        min inT.n (i * subBatchSize inT.n e.m_maxTempMemSizeInSamples + subBatchSize inT.n e.m_maxTempMemSizeInSamples) ∧
      1 ≤ min inT.n (i * subBatchSize inT.n e.m_maxTempMemSizeInSamples + subBatchSize inT.n e.m_maxTempMemSizeInSamples)
        - i * subBatchSize inT.n e.m_maxTempMemSizeInSamples := by
    intro i hi
    have hlt := start_lt_of_lt_numSubBatches hs hi
    refine ⟨hlt, ?_, ?_⟩ <;> omega
  have hloop := forwardLoop_eq B e inT inp filterT filter convOpt outT out hn
  refine ⟨hs, numSubBatches_pos hn hs, hidx, ⟨_, hloop, ?_, ?_⟩, ?_⟩
  · rw [Forward, hloop]; rfl
  · intro p hp
    rw [afterPasses_passes, List.mem_map] at hp
    obtain ⟨i, hi, rfl⟩ := hp
    obtain ⟨h1, h2, h3⟩ := hidx i (List.mem_range.1 hi)
    exact ⟨h1, h2, rfl, h3⟩
  · intro h0
    have hz : subBatchSize inT0.n e.m_maxTempMemSizeInSamples = 0 := by
      rw [h0]
      unfold subBatchSize
      simp
    have hl : ForwardLoop B e inT0 inp filterT filter convOpt outT out = none := by
      simp only [ForwardLoop, hz, if_true]
    exact ⟨hz, hl, by rw [Forward, hl]; rfl⟩

/-- Witness for C14: a batch of three samples with limit 2. -/
theorem forward_arithmetic_safety_witness :
    (1 : Nat) ≤ 3 ∧ 1 ≤ subBatchSize 3 2 ∧ 1 ≤ numSubBatches 3 (subBatchSize 3 2) :=
  ⟨by decide,
    (forward_arithmetic_safety scalingBackend
      { m_maxTempMemSizeInSamples := 2, m_tempMatrix := { numRows := 0, numCols := 0, data := [] } }
      { w := 1, h := 1, c := 1, n := 3 } { w := 1, h := 1, c := 1, n := 0 }
      { numRows := 1, numCols := 3, data := [5, 7, 11] }
      { w := 1, h := 1, c := 1, n := 1 } { numRows := 1, numCols := 1, data := [2] }
      { wStride := 1, hStride := 1, padding := false } { w := 1, h := 1, c := 1, n := 3 }
      { numRows := 0, numCols := 0, data := [] } (by decide)).1,
    (forward_arithmetic_safety scalingBackend
      { m_maxTempMemSizeInSamples := 2, m_tempMatrix := { numRows := 0, numCols := 0, data := [] } }
      { w := 1, h := 1, c := 1, n := 3 } { w := 1, h := 1, c := 1, n := 0 }
      { numRows := 1, numCols := 3, data := [5, 7, 11] }
      { w := 1, h := 1, c := 1, n := 1 } { numRows := 1, numCols := 1, data := [2] }
      { wStride := 1, hStride := 1, padding := false } { w := 1, h := 1, c := 1, n := 3 }
      { numRows := 0, numCols := 0, data := [] } (by decide)).2.1⟩

end DefaultConvolutionEngine

namespace CuDnnConvolutionEngine

section Workspace

variable {α : Type}

theorem resize_length [Inhabited α] (m : Mat α) (r c : Nat) :
    (m.Resize r c).data.length = r * c := by
  simp only [Mat.Resize, List.length_append, List.length_take, List.length_replicate]
  omega

/-- The rounding `(memory + elemSize - 1) / elemSize` gives the least count of
elements that holds `memory` bytes; it holds fewer than `memory + elemSize`
bytes. -/
theorem roundUp_spec (memory elemSize : Nat) (h : 0 < elemSize) :
    memory ≤ (memory + elemSize - 1) / elemSize * elemSize ∧
    (memory + elemSize - 1) / elemSize * elemSize < memory + elemSize ∧
    ∀ k, memory ≤ k * elemSize → (memory + elemSize - 1) / elemSize ≤ k := by
  have h1 := DefaultConvolutionEngine.numSubBatches_spec (n := memory) (s := elemSize) h
  unfold DefaultConvolutionEngine.numSubBatches at h1
  have h2 := Nat.div_mul_le_self (memory + elemSize - 1) elemSize
  exact ⟨h1.1, by omega, h1.2⟩

/-- The selection of `Forward` does not touch the temporary buffer. -/
theorem findBestForwardAlgo_tempC (V : Cudnn α) (elemSize : Nat)
    (e e1 : CuDnnConvolutionEngine α) (inT : CuDnnTensor4D) (filterT : CuDnnFilter)
    (convDesc : CuDnnConvolutionDescriptor) (outT : CuDnnTensor4D)
    (hF : FindBestForwardAlgo V elemSize e inT filterT convDesc outT = (.ok (), e1)) :
    e1.m_tempC = e.m_tempC := by
  by_cases hst : e.m_fwdAlgo.status = CUDNN_STATUS_SUCCESS
  · simp only [FindBestForwardAlgo, hst, if_true, Prod.mk.injEq, true_and] at hF
    rw [← hF]
  · rcases findBestForwardAlgo_cases V elemSize e inT filterT convDesc outT hst with
      ⟨err, h⟩ | ⟨res, -, h⟩
    · rw [h] at hF
      cases hF
    · rw [h] at hF
      cases hF
      rfl

/-- The selection of `BackwardData` does not touch the temporary buffer. -/
theorem findBestBackwardDataAlgo_tempC (V : Cudnn α) (elemSize : Nat)
    (e e1 : CuDnnConvolutionEngine α) (filterT : CuDnnFilter) (srcGradT : CuDnnTensor4D)
    (convDesc : CuDnnConvolutionDescriptor) (gradT : CuDnnTensor4D)
    (hF : FindBestBackwardDataAlgo V elemSize e filterT srcGradT convDesc gradT = (.ok (), e1)) :
    e1.m_tempC = e.m_tempC := by
  by_cases hst : e.m_backDataAlgo.status = CUDNN_STATUS_SUCCESS
  · simp only [FindBestBackwardDataAlgo, hst, if_true, Prod.mk.injEq, true_and] at hF
    rw [← hF]
  · rcases findBestBackwardDataAlgo_cases V elemSize e filterT srcGradT convDesc gradT hst with
      ⟨err, h⟩ | ⟨res, -, h⟩
    · rw [h] at hF
      cases hF
    · rw [h] at hF
      cases hF
      rfl

/-- The selection of `BackwardFilter` does not touch the temporary buffer. -/
theorem findBestBackwardFilterAlgo_tempC (V : Cudnn α) (elemSize : Nat)
    (e e1 : CuDnnConvolutionEngine α) (inT : CuDnnTensor4D) (srcGradT : CuDnnTensor4D)
    (convDesc : CuDnnConvolutionDescriptor) (filterT : CuDnnFilter)
    (hF : FindBestBackwardFilterAlgo V elemSize e inT srcGradT convDesc filterT = (.ok (), e1)) :
    e1.m_tempC = e.m_tempC := by
  by_cases hst : e.m_backFiltAlgo.status = CUDNN_STATUS_SUCCESS
  · simp only [FindBestBackwardFilterAlgo, hst, if_true, Prod.mk.injEq, true_and] at hF
    rw [← hF]
  · rcases findBestBackwardFilterAlgo_cases V elemSize e inT srcGradT convDesc filterT hst with
      ⟨err, h⟩ | ⟨res, -, h⟩
    · rw [h] at hF
      cases hF
    · rw [h] at hF
      cases hF
      rfl

end Workspace

/-- C13. Workspace sizing, for an element size of at least one byte.  Whenever the
selection of `Forward`, `BackwardData` or `BackwardFilter` returns normally
(an algorithm selected now or cached), the slot after the call holds that
algorithm.  If it needs `memory > 0` bytes, the temporary buffer is resized
to `(memory + elemSize - 1) / elemSize` elements by 1 column, the least
element count whose bytes reach `memory`, so it holds at least `memory` and
fewer than `memory + elemSize` bytes, and the vendor primitive is invoked with
the resized buffer.  If it needs 0 bytes the buffer is not resized and the
primitive is invoked with the buffer as it was. -/
theorem workspace_sizing {α : Type} [Inhabited α] [Zero α] [One α] (V : Cudnn α)
    (elemSize : Nat) (e eF eD eW : CuDnnConvolutionEngine α)
    (inT outT srcGradT gradT : CuDnnTensor4D) (inp out srcGrad grad filter : Mat α)
    (filterT : CuDnnFilter) (convDesc : CuDnnConvolutionDescriptor) (allowReuse : Bool)
    (hsz : 0 < elemSize) :
    (FindBestForwardAlgo V elemSize e inT filterT convDesc outT = (.ok (), eF) →
      (Forward V elemSize e inT inp filterT filter convDesc outT out).2.1.m_fwdAlgo = eF.m_fwdAlgo ∧
      (0 < eF.m_fwdAlgo.memory →
        (Forward V elemSize e inT inp filterT filter convDesc outT out).2.1.m_tempC =
          e.m_tempC.Resize ((eF.m_fwdAlgo.memory + elemSize - 1) / elemSize) 1 ∧
        (Forward V elemSize e inT inp filterT filter convDesc outT out).2.1.m_tempC.numRows =
          (eF.m_fwdAlgo.memory + elemSize - 1) / elemSize ∧
        (Forward V elemSize e inT inp filterT filter convDesc outT out).2.1.m_tempC.numCols = 1 ∧
        (Forward V elemSize e inT inp filterT filter convDesc outT out).2.1.m_tempC.data.length =
          (eF.m_fwdAlgo.memory + elemSize - 1) / elemSize ∧
        eF.m_fwdAlgo.memory ≤
          (Forward V elemSize e inT inp filterT filter convDesc outT out).2.1.m_tempC.numRows * elemSize ∧
        (Forward V elemSize e inT inp filterT filter convDesc outT out).2.1.m_tempC.numRows * elemSize <
          eF.m_fwdAlgo.memory + elemSize ∧
        (∀ k, eF.m_fwdAlgo.memory ≤ k * elemSize →
          (Forward V elemSize e inT inp filterT filter convDesc outT out).2.1.m_tempC.numRows ≤ k) ∧
        (Forward V elemSize e inT inp filterT filter convDesc outT out).2.2.data =
          (V.cudnnConvolutionForward eF.m_cudnn 1 inT inp.data filterT filter.data convDesc
          eF.m_fwdAlgo.algo (e.m_tempC.Resize ((eF.m_fwdAlgo.memory + elemSize - 1) / elemSize) 1) eF.m_fwdAlgo.memory 0 outT out.data).2 ∧
        ∃ expr, (Forward V elemSize e inT inp filterT filter convDesc outT out).1 =
          CUDNN_CALL (V.cudnnConvolutionForward eF.m_cudnn 1 inT inp.data filterT filter.data convDesc
          eF.m_fwdAlgo.algo (e.m_tempC.Resize ((eF.m_fwdAlgo.memory + elemSize - 1) / elemSize) 1) eF.m_fwdAlgo.memory 0 outT out.data).1 expr) ∧
      (eF.m_fwdAlgo.memory = 0 →
        (Forward V elemSize e inT inp filterT filter convDesc outT out).2.1.m_tempC = e.m_tempC ∧
        (Forward V elemSize e inT inp filterT filter convDesc outT out).2.2.data =
          (V.cudnnConvolutionForward eF.m_cudnn 1 inT inp.data filterT filter.data convDesc
          eF.m_fwdAlgo.algo e.m_tempC eF.m_fwdAlgo.memory 0 outT out.data).2 ∧
        ∃ expr, (Forward V elemSize e inT inp filterT filter convDesc outT out).1 =
          CUDNN_CALL (V.cudnnConvolutionForward eF.m_cudnn 1 inT inp.data filterT filter.data convDesc
          eF.m_fwdAlgo.algo e.m_tempC eF.m_fwdAlgo.memory 0 outT out.data).1 expr)) ∧
    (FindBestBackwardDataAlgo V elemSize e filterT srcGradT convDesc gradT = (.ok (), eD) →
      (BackwardData V elemSize e srcGradT srcGrad filterT filter convDesc gradT grad).2.1.m_backDataAlgo = eD.m_backDataAlgo ∧
      (0 < eD.m_backDataAlgo.memory →
        (BackwardData V elemSize e srcGradT srcGrad filterT filter convDesc gradT grad).2.1.m_tempC =
          e.m_tempC.Resize ((eD.m_backDataAlgo.memory + elemSize - 1) / elemSize) 1 ∧
        (BackwardData V elemSize e srcGradT srcGrad filterT filter convDesc gradT grad).2.1.m_tempC.numRows =
          (eD.m_backDataAlgo.memory + elemSize - 1) / elemSize ∧
        (BackwardData V elemSize e srcGradT srcGrad filterT filter convDesc gradT grad).2.1.m_tempC.numCols = 1 ∧
        (BackwardData V elemSize e srcGradT srcGrad filterT filter convDesc gradT grad).2.1.m_tempC.data.length =
          (eD.m_backDataAlgo.memory + elemSize - 1) / elemSize ∧
        eD.m_backDataAlgo.memory ≤
          (BackwardData V elemSize e srcGradT srcGrad filterT filter convDesc gradT grad).2.1.m_tempC.numRows * elemSize ∧
        (BackwardData V elemSize e srcGradT srcGrad filterT filter convDesc gradT grad).2.1.m_tempC.numRows * elemSize <
          eD.m_backDataAlgo.memory + elemSize ∧
        (∀ k, eD.m_backDataAlgo.memory ≤ k * elemSize →
          (BackwardData V elemSize e srcGradT srcGrad filterT filter convDesc gradT grad).2.1.m_tempC.numRows ≤ k) ∧
        (BackwardData V elemSize e srcGradT srcGrad filterT filter convDesc gradT grad).2.2.data =
          (V.cudnnConvolutionBackwardData eD.m_cudnn 1 filterT filter.data srcGradT srcGrad.data
          convDesc eD.m_backDataAlgo.algo (e.m_tempC.Resize ((eD.m_backDataAlgo.memory + elemSize - 1) / elemSize) 1) eD.m_backDataAlgo.memory 1 gradT grad.data).2 ∧
        ∃ expr, (BackwardData V elemSize e srcGradT srcGrad filterT filter convDesc gradT grad).1 =
          CUDNN_CALL (V.cudnnConvolutionBackwardData eD.m_cudnn 1 filterT filter.data srcGradT srcGrad.data
          convDesc eD.m_backDataAlgo.algo (e.m_tempC.Resize ((eD.m_backDataAlgo.memory + elemSize - 1) / elemSize) 1) eD.m_backDataAlgo.memory 1 gradT grad.data).1 expr) ∧
      (eD.m_backDataAlgo.memory = 0 →
        (BackwardData V elemSize e srcGradT srcGrad filterT filter convDesc gradT grad).2.1.m_tempC = e.m_tempC ∧
        (BackwardData V elemSize e srcGradT srcGrad filterT filter convDesc gradT grad).2.2.data =
          (V.cudnnConvolutionBackwardData eD.m_cudnn 1 filterT filter.data srcGradT srcGrad.data
          convDesc eD.m_backDataAlgo.algo e.m_tempC eD.m_backDataAlgo.memory 1 gradT grad.data).2 ∧
        ∃ expr, (BackwardData V elemSize e srcGradT srcGrad filterT filter convDesc gradT grad).1 =
          CUDNN_CALL (V.cudnnConvolutionBackwardData eD.m_cudnn 1 filterT filter.data srcGradT srcGrad.data
          convDesc eD.m_backDataAlgo.algo e.m_tempC eD.m_backDataAlgo.memory 1 gradT grad.data).1 expr)) ∧
    (FindBestBackwardFilterAlgo V elemSize e inT srcGradT convDesc filterT = (.ok (), eW) →
      (BackwardFilter V elemSize e srcGradT srcGrad inT inp convDesc filterT filter allowReuse).2.1.m_backFiltAlgo = eW.m_backFiltAlgo ∧
      (0 < eW.m_backFiltAlgo.memory →
        (BackwardFilter V elemSize e srcGradT srcGrad inT inp convDesc filterT filter allowReuse).2.1.m_tempC =
          e.m_tempC.Resize ((eW.m_backFiltAlgo.memory + elemSize - 1) / elemSize) 1 ∧
        (BackwardFilter V elemSize e srcGradT srcGrad inT inp convDesc filterT filter allowReuse).2.1.m_tempC.numRows =
          (eW.m_backFiltAlgo.memory + elemSize - 1) / elemSize ∧
        (BackwardFilter V elemSize e srcGradT srcGrad inT inp convDesc filterT filter allowReuse).2.1.m_tempC.numCols = 1 ∧
        (BackwardFilter V elemSize e srcGradT srcGrad inT inp convDesc filterT filter allowReuse).2.1.m_tempC.data.length =
          (eW.m_backFiltAlgo.memory + elemSize - 1) / elemSize ∧
        eW.m_backFiltAlgo.memory ≤
          (BackwardFilter V elemSize e srcGradT srcGrad inT inp convDesc filterT filter allowReuse).2.1.m_tempC.numRows * elemSize ∧
        (BackwardFilter V elemSize e srcGradT srcGrad inT inp convDesc filterT filter allowReuse).2.1.m_tempC.numRows * elemSize <
          eW.m_backFiltAlgo.memory + elemSize ∧
        (∀ k, eW.m_backFiltAlgo.memory ≤ k * elemSize →
          (BackwardFilter V elemSize e srcGradT srcGrad inT inp convDesc filterT filter allowReuse).2.1.m_tempC.numRows ≤ k) ∧
        (BackwardFilter V elemSize e srcGradT srcGrad inT inp convDesc filterT filter allowReuse).2.2.data =
          (V.cudnnConvolutionBackwardFilter eW.m_cudnn 1 inT inp.data srcGradT srcGrad.data
          convDesc eW.m_backFiltAlgo.algo (e.m_tempC.Resize ((eW.m_backFiltAlgo.memory + elemSize - 1) / elemSize) 1) eW.m_backFiltAlgo.memory 1 filterT filter.data).2 ∧
        ∃ expr, (BackwardFilter V elemSize e srcGradT srcGrad inT inp convDesc filterT filter allowReuse).1 =
          CUDNN_CALL (V.cudnnConvolutionBackwardFilter eW.m_cudnn 1 inT inp.data srcGradT srcGrad.data
          convDesc eW.m_backFiltAlgo.algo (e.m_tempC.Resize ((eW.m_backFiltAlgo.memory + elemSize - 1) / elemSize) 1) eW.m_backFiltAlgo.memory 1 filterT filter.data).1 expr) ∧
      (eW.m_backFiltAlgo.memory = 0 →
        (BackwardFilter V elemSize e srcGradT srcGrad inT inp convDesc filterT filter allowReuse).2.1.m_tempC = e.m_tempC ∧
        (BackwardFilter V elemSize e srcGradT srcGrad inT inp convDesc filterT filter allowReuse).2.2.data =
          (V.cudnnConvolutionBackwardFilter eW.m_cudnn 1 inT inp.data srcGradT srcGrad.data
          convDesc eW.m_backFiltAlgo.algo e.m_tempC eW.m_backFiltAlgo.memory 1 filterT filter.data).2 ∧
        ∃ expr, (BackwardFilter V elemSize e srcGradT srcGrad inT inp convDesc filterT filter allowReuse).1 =
          CUDNN_CALL (V.cudnnConvolutionBackwardFilter eW.m_cudnn 1 inT inp.data srcGradT srcGrad.data
          convDesc eW.m_backFiltAlgo.algo e.m_tempC eW.m_backFiltAlgo.memory 1 filterT filter.data).1 expr)) := by
  refine ⟨?_, ?_, ?_⟩
  · intro hF
    obtain ⟨h1, -, -, -, h5, h6, h7⟩ :=
      forward_of_findBest_ok V elemSize e eF inT inp filterT filter convDesc outT out hF
    have hT := findBestForwardAlgo_tempC V elemSize e eF inT filterT convDesc outT hF
    rw [hT] at h5 h6 h7
    refine ⟨h1, fun hm => ?_, fun hm => ?_⟩
    · rw [if_pos hm] at h5 h6 h7
      obtain ⟨r1, r2, r3⟩ := roundUp_spec eF.m_fwdAlgo.memory elemSize hsz
      rw [h5]
      refine ⟨rfl, rfl, rfl, ?_, r1, r2, r3, h6, h7⟩
      rw [resize_length, Nat.mul_one]
    · have hm0 : ¬ eF.m_fwdAlgo.memory > 0 := by omega
      rw [if_neg hm0] at h5 h6 h7
      exact ⟨h5, h6, h7⟩
  · intro hF
    obtain ⟨h1, -, -, -, h5, h6, h7⟩ :=
      backwardData_of_findBest_ok V elemSize e eD srcGradT srcGrad filterT filter convDesc gradT grad hF
    have hT := findBestBackwardDataAlgo_tempC V elemSize e eD filterT srcGradT convDesc gradT hF
    rw [hT] at h5 h6 h7
    refine ⟨h1, fun hm => ?_, fun hm => ?_⟩
    · rw [if_pos hm] at h5 h6 h7
      obtain ⟨r1, r2, r3⟩ := roundUp_spec eD.m_backDataAlgo.memory elemSize hsz
      rw [h5]
      refine ⟨rfl, rfl, rfl, ?_, r1, r2, r3, h6, h7⟩
      rw [resize_length, Nat.mul_one]
    · have hm0 : ¬ eD.m_backDataAlgo.memory > 0 := by omega
      rw [if_neg hm0] at h5 h6 h7
      exact ⟨h5, h6, h7⟩
  · intro hF
    obtain ⟨h1, -, -, -, h5, h6, h7⟩ :=
      backwardFilter_of_findBest_ok V elemSize e eW srcGradT srcGrad inT inp convDesc filterT filter allowReuse hF
    have hT := findBestBackwardFilterAlgo_tempC V elemSize e eW inT srcGradT convDesc filterT hF
    rw [hT] at h5 h6 h7
    refine ⟨h1, fun hm => ?_, fun hm => ?_⟩
    · rw [if_pos hm] at h5 h6 h7
      obtain ⟨r1, r2, r3⟩ := roundUp_spec eW.m_backFiltAlgo.memory elemSize hsz
      rw [h5]
      refine ⟨rfl, rfl, rfl, ?_, r1, r2, r3, h6, h7⟩
      rw [resize_length, Nat.mul_one]
    · have hm0 : ¬ eW.m_backFiltAlgo.memory > 0 := by omega
      rw [if_neg hm0] at h5 h6 h7
      exact ⟨h5, h6, h7⟩

/-- Witness for C13: on the sample vendor library with 4-byte elements the
selected algorithm needs 16 bytes and the temporary buffer gets 4 rows. -/
theorem workspace_sizing_witness :
    (Forward sampleCudnn 4 sampleEngine sampleTensor sampleInput sampleFilter sampleWeights
      sampleConvDesc sampleTensor sampleGrad).2.1.m_tempC.numRows = (16 + 4 - 1) / 4 ∧
    (16 + 4 - 1) / 4 = 4 :=
  ⟨(((workspace_sizing sampleCudnn 4 sampleEngine
      { sampleEngine with
        calls := sampleEngine.calls ++ [CudnnCall.FindConvolutionForwardAlgorithm]
        m_fwdAlgo := { algo := 2, status := CUDNN_STATUS_SUCCESS, memory := 16 } }
      sampleEngine sampleEngine sampleTensor sampleTensor sampleTensor sampleTensor
      sampleInput sampleGrad sampleInput sampleGrad sampleWeights sampleFilter sampleConvDesc
      false (by decide)).1 rfl).2.1 (by decide)).2.1, by decide⟩

end CuDnnConvolutionEngine

end CNTK
